import Mathlib

/-!
Verification of the CLR debug-header table builder
(`src/coreclr/debug/ee/clrdebugheader.cpp`) and the executable-path
resolution utility (`src/native/minipal/getexepath.h`).

The builder is embedded shallowly: each C row struct becomes a Lean
structure, each fixed-capacity global array becomes the list of its
populated prefix (the fill pointer of the C code always equals the
length of that prefix), and each registration macro becomes a state
transformer in `Except`, faulting on an out-of-bounds array write or a
failed `ASSERT` (the checked-build semantics).  The compile-time facts
the builder reads from the rest of the runtime (`sizeof` of a type,
`offsetof` of a member, the address of a global, the value of a named
constant) are opaque to this file; a stored machine word is therefore
kept as the symbolic expression `Word` the source writes, and its
numeric meaning under a valuation `Env` of those facts is given by
`Word.eval` (with `Word.eval32` for the narrowing `uint32_t` stores,
and wrapping `size_t` subtraction for the `baseoffset` macro).  This
makes the builder run a closed term while losing none of the source's
arithmetic.  A ghost `events` field records the order of the
table writes so that the temporal claims (publish-last ordering, no
forward references) can be stated over the actual write sequence; it
influences nothing.
-/

namespace ClrDebug

/-- A machine word as the expression the source stores: a literal, a
`sizeof(type)`, an `offsetof(type, field)`, the address `&name` of a
runtime global, a named compile-time constant, or a wrapping `size_t`
subtraction.  Its value under a valuation of the opaque facts is
`Word.eval`. -/
inductive Word where
  | lit (n : Nat)
  | sizeofW (type : String)
  | offsetofW (type field : String)
  | addrofW (name : String)
  | constW (name : String)
  | subW (a b : Word)
deriving DecidableEq, Repr

/-- `struct DebugTable { const char* TableName; const void* TableElements; uint32_t RowCount; }`.
The `TableElements` pointer can only ever point at one of the six static
arrays, so it is modelled by an enumeration of those arrays. -/
inductive TablePtr where
  | s_DebugTables
  | s_DebugGlobals
  | s_DebugTypes
  | s_DebugFields
  | s_DebugBases
  | s_DebugDefines
deriving DecidableEq, Repr

structure DebugTable where
  TableName : String
  TableElements : TablePtr
  RowCount : Nat
deriving DecidableEq, Repr

/-- `struct DebugGlobalRow { const char* GlobalName; const void* Address; }`;
the address is an opaque machine word. -/
structure DebugGlobalRow where
  GlobalName : String
  Address : Word
deriving DecidableEq, Repr

/-- `struct DebugTypeRow { const char* TypeName; uint32_t Size; }`;
the `uint32_t` cell holds the value of `Size` narrowed modulo `2 ^ 32`
(`Word.eval32`). -/
structure DebugTypeRow where
  TypeName : String
  Size : Word
deriving DecidableEq, Repr

/-- `struct DebugMemberOffsetRow { const char* MemberName; uint32_t TypeId; uint32_t Offset; }`;
the `uint32_t` cell holds the value of `Offset` narrowed modulo `2 ^ 32`
(`Word.eval32`). -/
structure DebugMemberOffsetRow where
  MemberName : String
  TypeId : Nat
  Offset : Word
deriving DecidableEq, Repr

/-- `struct DebugDefineRow { const char* DefineName; uint32_t DefineValue; }`;
the `uint32_t` cell holds the value of `DefineValue` narrowed modulo
`2 ^ 32` (`Word.eval32`). -/
structure DebugDefineRow where
  DefineName : String
  DefineValue : Word
deriving DecidableEq, Repr

def DebugTablesArraySize : Nat := 5
def DebugGlobalsArraySize : Nat := 50
def DebugTypesArraySize : Nat := 100
def DebugFieldsArraySize : Nat := 200
def DebugBasesArraySize : Nat := 100
def DebugDefinesArraySize : Nat := 50

/-- `struct ClrDebugHeader`, with the in-class initializers of the source:
cookie `0x20 0x43 0x44 0x48`, version `2.0`, the table-directory pointer
aimed at `s_DebugTables`, and a table count of `0`. -/
structure ClrDebugHeaderT where
  Cookie : List Nat := [0x20, 0x43, 0x44, 0x48]
  MajorVersion : Nat := 2
  MinorVersion : Nat := 0
  DebugTables : TablePtr := TablePtr.s_DebugTables
  DebugTableCount : Nat := 0
deriving DecidableEq, Repr

/-- Ghost record of one write performed by the builder, in program order:
a row write into one of the five row tables (for Field and Base rows the
stored `TypeId` and the number of Type rows existing at the moment of the
write are recorded; for Type rows the assigned id), a directory-entry
write, or the single header table-count write. -/
inductive Event where
  | globalRow
  | typeRow (tid : Nat)
  | fieldRow (tid : Nat) (typeRows : Nat)
  | baseRow (tid : Nat) (typeRows : Nat)
  | defineRow
  | dirWrite (name : String) (rowCount : Nat)
  | countWrite (value : Nat)
deriving DecidableEq, Repr

/-- The mutable state of the builder pass: the global `ClrDebugHeader`
object and the populated prefixes of the six static arrays (the C fill
pointers `currentTablePos`, `currentGlobalPos`, ... are the lengths of
these lists).  `events` is the ghost write trace. -/
structure BuilderState where
  header : ClrDebugHeaderT := {}
  tables : List DebugTable := []
  globals : List DebugGlobalRow := []
  types : List DebugTypeRow := []
  fields : List DebugMemberOffsetRow := []
  bases : List DebugMemberOffsetRow := []
  defines : List DebugDefineRow := []
  events : List Event := []
deriving DecidableEq, Repr

/-- The state at the start of `PopulateClrDebugHeaders`: all fill
pointers zero and the header as zero-initialized at load time. -/
def initState : BuilderState := {}

/-- A fatal halt of the builder: an out-of-bounds array write (writing
at the fill pointer of an already-full array) or a failed `ASSERT`. -/
inductive BuildError where
  | outOfBoundsWrite
  | assertFailed
deriving DecidableEq, Repr

/-- The builder computations: state transformers that can fault. -/
def Builder (α : Type) : Type := StateT BuilderState (Except BuildError) α

instance : Monad Builder := inferInstanceAs (Monad (StateT BuilderState (Except BuildError)))

instance : MonadStateOf BuilderState Builder :=
  inferInstanceAs (MonadStateOf BuilderState (StateT BuilderState (Except BuildError)))

/-- Model of `arr[pos] = row` where `rows` is the populated prefix of a
fixed-capacity array of `cap` cells and `pos = rows.length` is the fill
pointer: within capacity the write extends the prefix; at or past
capacity the write is out of bounds and faults. -/
def writeNext (cap : Nat) (rows : List α) (row : α) : Except BuildError (List α) :=
  if rows.length < cap then .ok (rows ++ [row]) else .error .outOfBoundsWrite

/-- `ASSERT(cond)` of a checked build: a failed condition halts. -/
def assertE (p : Prop) [Decidable p] : Except BuildError Unit :=
  if p then .ok () else .error .assertFailed

/-- A valuation of the compile-time facts the C file reads from the
rest of the runtime: `sizeof` of a named type, `offsetof` of a named
member, the address of a named global, and the value of a named
constant. -/
structure Env where
  sizeOf : String → Nat
  offsetOf : String → String → Nat
  addrOf : String → Nat
  constVal : String → Nat

/-- A canonical valuation; the shape of the builder run does not depend
on these values. -/
def env0 : Env :=
  { sizeOf := fun _ => 0, offsetOf := fun _ _ => 0
    addrOf := fun _ => 0, constVal := fun _ => 0 }

/-- The numeric value of a stored word under a valuation of the opaque
facts; `subW` is the wrapping `size_t` subtraction. -/
def Word.eval (env : Env) : Word → Nat
  | .lit n => n
  | .sizeofW t => env.sizeOf t
  | .offsetofW t f => env.offsetOf t f
  | .addrofW n => env.addrOf n
  | .constW n => env.constVal n
  | .subW a b => (a.eval env % 2 ^ 64 + (2 ^ 64 - b.eval env % 2 ^ 64)) % 2 ^ 64

/-- The value a `uint32_t` struct cell holds after the narrowing store
of a word. -/
def Word.eval32 (env : Env) (w : Word) : Nat := w.eval env % 2 ^ 32

/-- `#define baseoffset(type, base, field) (offsetof(type, field) - offsetof(base, field))`:
the `size_t` subtraction of the two member offsets. -/
def baseoffset (type base field : String) : Word :=
  Word.subW (Word.offsetofW type field) (Word.offsetofW base field)

/-- `MAKE_GLOBAL_ENTRY(Name)`: write `{ #Name, &Name }` at the Global
fill pointer, advance it, `ASSERT` it did not pass the capacity. -/
def MAKE_GLOBAL_ENTRY (name : String) (addr : Word) : Builder Unit := fun st => do
  let rows ← writeNext DebugGlobalsArraySize st.globals { GlobalName := name, Address := addr }
  let st' := { st with globals := rows, events := st.events ++ [Event.globalRow] }
  assertE (st'.globals.length ≤ DebugGlobalsArraySize)
  pure ((), st')

/-- `MAKE_TYPE_ENTRY_WITH_ID(TypeName, TypeIdName)`: bind the current
Type fill pointer as the new id, write `{ #TypeName, sizeof(TypeName) }`
there, advance, `ASSERT` the capacity.  The bound id is the computation's result. -/
def MAKE_TYPE_ENTRY_WITH_ID (typeName : String) (size : Word) : Builder Nat := fun st => do
  let tid := st.types.length
  let rows ← writeNext DebugTypesArraySize st.types { TypeName := typeName, Size := size }
  let st' := { st with types := rows, events := st.events ++ [Event.typeRow tid] }
  assertE (st'.types.length ≤ DebugTypesArraySize)
  pure (tid, st')

/-- `MAKE_FIELD_ENTRY_WITH_ID(TypeName, TypeIdName, FieldName)`: write
`{ #FieldName, TypeIdName, offsetof(TypeName, FieldName) }` at the Field
fill pointer, advance, `ASSERT` the capacity. -/
def MAKE_FIELD_ENTRY_WITH_ID (tid : Nat) (fieldName : String) (offset : Word) :
    Builder Unit := fun st => do
  let rows ← writeNext DebugFieldsArraySize st.fields
    { MemberName := fieldName, TypeId := tid, Offset := offset }
  let st' := { st with fields := rows,
                       events := st.events ++ [Event.fieldRow tid st.types.length] }
  assertE (st'.fields.length ≤ DebugFieldsArraySize)
  pure ((), st')

/-- `MAKE_BASE_TYPE_ENTRY_WITH_ID(TypeName, TypeIdName, BaseType, FieldName)`:
write `{ #BaseType, TypeIdName, baseoffset(TypeName, BaseType, FieldName) }`
at the Base fill pointer, advance, `ASSERT` the capacity. -/
def MAKE_BASE_TYPE_ENTRY_WITH_ID (baseName : String) (tid : Nat) (offset : Word) :
    Builder Unit := fun st => do
  let rows ← writeNext DebugBasesArraySize st.bases
    { MemberName := baseName, TypeId := tid, Offset := offset }
  let st' := { st with bases := rows,
                       events := st.events ++ [Event.baseRow tid st.types.length] }
  assertE (st'.bases.length ≤ DebugBasesArraySize)
  pure ((), st')

/-- `MAKE_DEFINE_ENTRY(Name, Value)`: write `{ #Name, Value }` at the
Define fill pointer, advance, `ASSERT` the capacity. -/
def MAKE_DEFINE_ENTRY (name : String) (value : Word) : Builder Unit := fun st => do
  let rows ← writeNext DebugDefinesArraySize st.defines
    { DefineName := name, DefineValue := value }
  let st' := { st with defines := rows, events := st.events ++ [Event.defineRow] }
  assertE (st'.defines.length ≤ DebugDefinesArraySize)
  pure ((), st')

/-- `MAKE_TABLE(TableName, TableAddress, TableCount)`: write the
directory entry at the directory fill pointer, advance, `ASSERT` the
capacity. -/
def MAKE_TABLE (name : String) (addr : TablePtr) (count : Nat) : Builder Unit := fun st => do
  let rows ← writeNext DebugTablesArraySize st.tables
    { TableName := name, TableElements := addr, RowCount := count }
  let st' := { st with tables := rows, events := st.events ++ [Event.dirWrite name count] }
  assertE (st'.tables.length ≤ DebugTablesArraySize)
  pure ((), st')

/-- `ClrDebugHeader.DebugTableCount = currentTablePos;` — the single
header table-count store, the last statement of the builder. -/
def setDebugTableCount : Builder Unit := fun st =>
  .ok ((), { st with
    header := { st.header with DebugTableCount := st.tables.length },
    events := st.events ++ [Event.countWrite st.tables.length] })

/-- The finalization tail of `PopulateClrDebugHeaders` (the operation
the specification calls `FinalizeTables()`): the five `MAKE_TABLE`
directory writes in the fixed order Global, Type, Field, Base, Define,
each taking the current fill pointer of its category as the row count,
followed — as the very last step — by the header table-count store. -/
def FinalizeTables : Builder Unit := do
  MAKE_TABLE "Global" TablePtr.s_DebugGlobals (← get).globals.length
  MAKE_TABLE "Type" TablePtr.s_DebugTypes (← get).types.length
  MAKE_TABLE "Field" TablePtr.s_DebugFields (← get).fields.length
  MAKE_TABLE "Base" TablePtr.s_DebugBases (← get).bases.length
  MAKE_TABLE "Define" TablePtr.s_DebugDefines (← get).defines.length
  setDebugTableCount

set_option maxRecDepth 8000

/-- The registration body of `PopulateClrDebugHeaders` (lines 180–481 of
the source), macro call for macro call.  `MAKE_TYPE_ENTRY(T)` is
`MAKE_TYPE_ENTRY_WITH_ID(T, TTypeId)`; `MAKE_FIELD_ENTRY(T, F)` and
`MAKE_BASE_TYPE_ENTRY(T, B, F)` pass `TTypeId`.  `fehf` is the
`FEATURE_EH_FUNCLETS` build flag guarding one define entry. -/
def registerAll (fehf : Bool) : Builder Unit := do
  MAKE_GLOBAL_ENTRY "ThreadStore::s_pThreadStore" (Word.addrofW "ThreadStore::s_pThreadStore")
  let ThreadStoreTypeId ← MAKE_TYPE_ENTRY_WITH_ID "ThreadStore" (Word.sizeofW "ThreadStore")
  MAKE_FIELD_ENTRY_WITH_ID ThreadStoreTypeId "m_ThreadList" (Word.offsetofW "ThreadStore" "m_ThreadList")

  let ThreadTypeId ← MAKE_TYPE_ENTRY_WITH_ID "Thread" (Word.sizeofW "Thread")
  MAKE_FIELD_ENTRY_WITH_ID ThreadTypeId "m_Link" (Word.offsetofW "Thread" "m_Link")
  MAKE_FIELD_ENTRY_WITH_ID ThreadTypeId "m_ThreadId" (Word.offsetofW "Thread" "m_ThreadId")
  MAKE_FIELD_ENTRY_WITH_ID ThreadTypeId "m_OSThreadId" (Word.offsetofW "Thread" "m_OSThreadId")
  MAKE_FIELD_ENTRY_WITH_ID ThreadTypeId "m_LastThrownObjectHandle" (Word.offsetofW "Thread" "m_LastThrownObjectHandle")
  MAKE_FIELD_ENTRY_WITH_ID ThreadTypeId "m_alloc_context" (Word.offsetofW "Thread" "m_alloc_context")

  let MethodTableTypeId ← MAKE_TYPE_ENTRY_WITH_ID "MethodTable" (Word.sizeofW "MethodTable")
  MAKE_FIELD_ENTRY_WITH_ID MethodTableTypeId "m_dwFlags" (Word.offsetofW "MethodTable" "m_dwFlags")
  MAKE_FIELD_ENTRY_WITH_ID MethodTableTypeId "m_wFlags2" (Word.offsetofW "MethodTable" "m_wFlags2")
  MAKE_FIELD_ENTRY_WITH_ID MethodTableTypeId "m_BaseSize" (Word.offsetofW "MethodTable" "m_BaseSize")
  MAKE_FIELD_ENTRY_WITH_ID MethodTableTypeId "m_wToken" (Word.offsetofW "MethodTable" "m_wToken")
  MAKE_FIELD_ENTRY_WITH_ID MethodTableTypeId "m_wNumVirtuals" (Word.offsetofW "MethodTable" "m_wNumVirtuals")
  MAKE_FIELD_ENTRY_WITH_ID MethodTableTypeId "m_wNumInterfaces" (Word.offsetofW "MethodTable" "m_wNumInterfaces")
  MAKE_FIELD_ENTRY_WITH_ID MethodTableTypeId "m_pParentMethodTable" (Word.offsetofW "MethodTable" "m_pParentMethodTable")
  MAKE_FIELD_ENTRY_WITH_ID MethodTableTypeId "m_pLoaderModule" (Word.offsetofW "MethodTable" "m_pLoaderModule")
  MAKE_FIELD_ENTRY_WITH_ID MethodTableTypeId "m_pWriteableData" (Word.offsetofW "MethodTable" "m_pWriteableData")
  MAKE_FIELD_ENTRY_WITH_ID MethodTableTypeId "m_pCanonMT" (Word.offsetofW "MethodTable" "m_pCanonMT")
  MAKE_FIELD_ENTRY_WITH_ID MethodTableTypeId "m_pEEClass" (Word.offsetofW "MethodTable" "m_pEEClass")
  MAKE_FIELD_ENTRY_WITH_ID MethodTableTypeId "m_pPerInstInfo" (Word.offsetofW "MethodTable" "m_pPerInstInfo")
  MAKE_FIELD_ENTRY_WITH_ID MethodTableTypeId "m_ElementTypeHnd" (Word.offsetofW "MethodTable" "m_ElementTypeHnd")
  MAKE_FIELD_ENTRY_WITH_ID MethodTableTypeId "m_pMultipurposeSlot1" (Word.offsetofW "MethodTable" "m_pMultipurposeSlot1")
  MAKE_FIELD_ENTRY_WITH_ID MethodTableTypeId "m_pInterfaceMap" (Word.offsetofW "MethodTable" "m_pInterfaceMap")
  MAKE_FIELD_ENTRY_WITH_ID MethodTableTypeId "m_pMultipurposeSlot2" (Word.offsetofW "MethodTable" "m_pMultipurposeSlot2")

  let MethodDescTypeId ← MAKE_TYPE_ENTRY_WITH_ID "MethodDesc" (Word.sizeofW "MethodDesc")
  MAKE_FIELD_ENTRY_WITH_ID MethodDescTypeId "m_chunkIndex" (Word.offsetofW "MethodDesc" "m_chunkIndex")
  MAKE_FIELD_ENTRY_WITH_ID MethodDescTypeId "m_wFlags" (Word.offsetofW "MethodDesc" "m_wFlags")
  MAKE_FIELD_ENTRY_WITH_ID MethodDescTypeId "m_bFlags2" (Word.offsetofW "MethodDesc" "m_bFlags2")
  MAKE_FIELD_ENTRY_WITH_ID MethodDescTypeId "m_wFlags3AndTokenRemainder" (Word.offsetofW "MethodDesc" "m_wFlags3AndTokenRemainder")
  MAKE_FIELD_ENTRY_WITH_ID MethodDescTypeId "m_wSlotNumber" (Word.offsetofW "MethodDesc" "m_wSlotNumber")

  let FCallMethodDescTypeId ← MAKE_TYPE_ENTRY_WITH_ID "FCallMethodDesc" (Word.sizeofW "FCallMethodDesc")
  MAKE_BASE_TYPE_ENTRY_WITH_ID "MethodDesc" FCallMethodDescTypeId (baseoffset "FCallMethodDesc" "MethodDesc" "m_chunkIndex")

  let NDirectMethodDescTypeId ← MAKE_TYPE_ENTRY_WITH_ID "NDirectMethodDesc" (Word.sizeofW "NDirectMethodDesc")
  MAKE_BASE_TYPE_ENTRY_WITH_ID "MethodDesc" NDirectMethodDescTypeId (baseoffset "NDirectMethodDesc" "MethodDesc" "m_chunkIndex")

  let EEImplMethodDescTypeId ← MAKE_TYPE_ENTRY_WITH_ID "EEImplMethodDesc" (Word.sizeofW "EEImplMethodDesc")
  MAKE_BASE_TYPE_ENTRY_WITH_ID "MethodDesc" EEImplMethodDescTypeId (baseoffset "EEImplMethodDesc" "MethodDesc" "m_chunkIndex")

  let ArrayMethodDescTypeId ← MAKE_TYPE_ENTRY_WITH_ID "ArrayMethodDesc" (Word.sizeofW "ArrayMethodDesc")
  MAKE_BASE_TYPE_ENTRY_WITH_ID "MethodDesc" ArrayMethodDescTypeId (baseoffset "ArrayMethodDesc" "MethodDesc" "m_chunkIndex")

  let InstantiatedMethodDescTypeId ← MAKE_TYPE_ENTRY_WITH_ID "InstantiatedMethodDesc" (Word.sizeofW "InstantiatedMethodDesc")
  MAKE_BASE_TYPE_ENTRY_WITH_ID "MethodDesc" InstantiatedMethodDescTypeId (baseoffset "InstantiatedMethodDesc" "MethodDesc" "m_chunkIndex")

  let DynamicMethodDescTypeId ← MAKE_TYPE_ENTRY_WITH_ID "DynamicMethodDesc" (Word.sizeofW "DynamicMethodDesc")
  MAKE_BASE_TYPE_ENTRY_WITH_ID "MethodDesc" DynamicMethodDescTypeId (baseoffset "DynamicMethodDesc" "MethodDesc" "m_chunkIndex")

  let MethodDescChunkTypeId ← MAKE_TYPE_ENTRY_WITH_ID "MethodDescChunk" (Word.sizeofW "MethodDescChunk")
  MAKE_FIELD_ENTRY_WITH_ID MethodDescChunkTypeId "m_methodTable" (Word.offsetofW "MethodDescChunk" "m_methodTable")
  MAKE_FIELD_ENTRY_WITH_ID MethodDescChunkTypeId "m_next" (Word.offsetofW "MethodDescChunk" "m_next")
  MAKE_FIELD_ENTRY_WITH_ID MethodDescChunkTypeId "m_size" (Word.offsetofW "MethodDescChunk" "m_size")
  MAKE_FIELD_ENTRY_WITH_ID MethodDescChunkTypeId "m_count" (Word.offsetofW "MethodDescChunk" "m_count")
  MAKE_FIELD_ENTRY_WITH_ID MethodDescChunkTypeId "m_flagsAndTokenRange" (Word.offsetofW "MethodDescChunk" "m_flagsAndTokenRange")

  let _MethodImplTypeId ← MAKE_TYPE_ENTRY_WITH_ID "MethodImpl" (Word.sizeofW "MethodImpl")

  let TypeDescTypeId ← MAKE_TYPE_ENTRY_WITH_ID "TypeDesc" (Word.sizeofW "TypeDesc")
  MAKE_FIELD_ENTRY_WITH_ID TypeDescTypeId "m_typeAndFlags" (Word.offsetofW "TypeDesc" "m_typeAndFlags")

  let ParamTypeDescTypeId ← MAKE_TYPE_ENTRY_WITH_ID "ParamTypeDesc" (Word.sizeofW "ParamTypeDesc")
  MAKE_BASE_TYPE_ENTRY_WITH_ID "TypeDesc" ParamTypeDescTypeId (baseoffset "ParamTypeDesc" "TypeDesc" "m_typeAndFlags")
  MAKE_FIELD_ENTRY_WITH_ID ParamTypeDescTypeId "m_Arg" (Word.offsetofW "ParamTypeDesc" "m_Arg")

  let GenericsDictInfoTypeId ← MAKE_TYPE_ENTRY_WITH_ID "GenericsDictInfo" (Word.sizeofW "GenericsDictInfo")
  MAKE_FIELD_ENTRY_WITH_ID GenericsDictInfoTypeId "m_wNumDicts" (Word.offsetofW "GenericsDictInfo" "m_wNumDicts")
  MAKE_FIELD_ENTRY_WITH_ID GenericsDictInfoTypeId "m_wNumTyPars" (Word.offsetofW "GenericsDictInfo" "m_wNumTyPars")

  let MethodTableWriteableDataTypeId ← MAKE_TYPE_ENTRY_WITH_ID "MethodTableWriteableData" (Word.sizeofW "MethodTableWriteableData")
  MAKE_FIELD_ENTRY_WITH_ID MethodTableWriteableDataTypeId "m_dwFlags" (Word.offsetofW "MethodTableWriteableData" "m_dwFlags")

  let ModuleTypeId ← MAKE_TYPE_ENTRY_WITH_ID "Module" (Word.sizeofW "Module")
  MAKE_FIELD_ENTRY_WITH_ID ModuleTypeId "m_pAssembly" (Word.offsetofW "Module" "m_pAssembly")
  MAKE_FIELD_ENTRY_WITH_ID ModuleTypeId "m_pSimpleName" (Word.offsetofW "Module" "m_pSimpleName")
  MAKE_FIELD_ENTRY_WITH_ID ModuleTypeId "m_pPEAssembly" (Word.offsetofW "Module" "m_pPEAssembly")
  MAKE_FIELD_ENTRY_WITH_ID ModuleTypeId "m_pReadyToRunInfo" (Word.offsetofW "Module" "m_pReadyToRunInfo")
  MAKE_FIELD_ENTRY_WITH_ID ModuleTypeId "m_TypeDefToMethodTableMap" (Word.offsetofW "Module" "m_TypeDefToMethodTableMap")
  MAKE_FIELD_ENTRY_WITH_ID ModuleTypeId "m_MethodDefToDescMap" (Word.offsetofW "Module" "m_MethodDefToDescMap")

  let PEAssemblyTypeId ← MAKE_TYPE_ENTRY_WITH_ID "PEAssembly" (Word.sizeofW "PEAssembly")
  MAKE_FIELD_ENTRY_WITH_ID PEAssemblyTypeId "m_pMDImport" (Word.offsetofW "PEAssembly" "m_pMDImport")
  MAKE_FIELD_ENTRY_WITH_ID PEAssemblyTypeId "m_PEImage" (Word.offsetofW "PEAssembly" "m_PEImage")

  let PEImageTypeId ← MAKE_TYPE_ENTRY_WITH_ID "PEImage" (Word.sizeofW "PEImage")
  MAKE_FIELD_ENTRY_WITH_ID PEImageTypeId "m_path" (Word.offsetofW "PEImage" "m_path")
  MAKE_FIELD_ENTRY_WITH_ID PEImageTypeId "m_pLayouts" (Word.offsetofW "PEImage" "m_pLayouts")
  MAKE_FIELD_ENTRY_WITH_ID PEImageTypeId "m_sModuleFileNameHintUsedByDac" (Word.offsetofW "PEImage" "m_sModuleFileNameHintUsedByDac")

  MAKE_DEFINE_ENTRY "IMAGE_FLAT" (Word.constW "PEImage::IMAGE_FLAT")
  MAKE_DEFINE_ENTRY "IMAGE_LOADED" (Word.constW "PEImage::IMAGE_LOADED")
  MAKE_DEFINE_ENTRY "IMAGE_COUNT" (Word.constW "PEImage::IMAGE_COUNT")

  let PEDecoderTypeId ← MAKE_TYPE_ENTRY_WITH_ID "PEDecoder" (Word.sizeofW "PEDecoder")
  MAKE_FIELD_ENTRY_WITH_ID PEDecoderTypeId "m_base" (Word.offsetofW "PEDecoder" "m_base")
  MAKE_FIELD_ENTRY_WITH_ID PEDecoderTypeId "m_size" (Word.offsetofW "PEDecoder" "m_size")
  MAKE_FIELD_ENTRY_WITH_ID PEDecoderTypeId "m_flags" (Word.offsetofW "PEDecoder" "m_flags")

  let PEImageLayoutTypeId ← MAKE_TYPE_ENTRY_WITH_ID "PEImageLayout" (Word.sizeofW "PEImageLayout")
  MAKE_BASE_TYPE_ENTRY_WITH_ID "PEDecoder" PEImageLayoutTypeId (baseoffset "PEImageLayout" "PEDecoder" "m_base")

  let EEClassTypeId ← MAKE_TYPE_ENTRY_WITH_ID "EEClass" (Word.sizeofW "EEClass")
  MAKE_FIELD_ENTRY_WITH_ID EEClassTypeId "m_fFieldsArePacked" (Word.offsetofW "EEClass" "m_fFieldsArePacked")
  MAKE_FIELD_ENTRY_WITH_ID EEClassTypeId "m_cbFixedEEClassFields" (Word.offsetofW "EEClass" "m_cbFixedEEClassFields")

  let ArrayClassTypeId ← MAKE_TYPE_ENTRY_WITH_ID "ArrayClass" (Word.sizeofW "ArrayClass")
  MAKE_FIELD_ENTRY_WITH_ID ArrayClassTypeId "m_rank" (Word.offsetofW "ArrayClass" "m_rank")
  MAKE_FIELD_ENTRY_WITH_ID ArrayClassTypeId "m_ElementType" (Word.offsetofW "ArrayClass" "m_ElementType")

  let _LoaderHeapTypeId ← MAKE_TYPE_ENTRY_WITH_ID "LoaderHeap" (Word.sizeofW "LoaderHeap")

  let LoaderAllocatorTypeId ← MAKE_TYPE_ENTRY_WITH_ID "LoaderAllocator" (Word.sizeofW "LoaderAllocator")
  MAKE_FIELD_ENTRY_WITH_ID LoaderAllocatorTypeId "m_pLowFrequencyHeap" (Word.offsetofW "LoaderAllocator" "m_pLowFrequencyHeap")
  MAKE_FIELD_ENTRY_WITH_ID LoaderAllocatorTypeId "m_pHighFrequencyHeap" (Word.offsetofW "LoaderAllocator" "m_pHighFrequencyHeap")
  MAKE_FIELD_ENTRY_WITH_ID LoaderAllocatorTypeId "m_pStubHeap" (Word.offsetofW "LoaderAllocator" "m_pStubHeap")

  let GlobalLoaderAllocatorTypeId ← MAKE_TYPE_ENTRY_WITH_ID "GlobalLoaderAllocator" (Word.sizeofW "GlobalLoaderAllocator")
  MAKE_BASE_TYPE_ENTRY_WITH_ID "LoaderAllocator" GlobalLoaderAllocatorTypeId (baseoffset "GlobalLoaderAllocator" "LoaderAllocator" "m_pLowFrequencyHeap")

  let LookupMapBaseTypeId ← MAKE_TYPE_ENTRY_WITH_ID "LookupMapBase" (Word.sizeofW "LookupMapBase")
  MAKE_FIELD_ENTRY_WITH_ID LookupMapBaseTypeId "pNext" (Word.offsetofW "LookupMapBase" "pNext")
  MAKE_FIELD_ENTRY_WITH_ID LookupMapBaseTypeId "pTable" (Word.offsetofW "LookupMapBase" "pTable")
  MAKE_FIELD_ENTRY_WITH_ID LookupMapBaseTypeId "dwCount" (Word.offsetofW "LookupMapBase" "dwCount")
  MAKE_FIELD_ENTRY_WITH_ID LookupMapBaseTypeId "supportedFlags" (Word.offsetofW "LookupMapBase" "supportedFlags")

  let LookupMap_MethodDesc_Ptr ← MAKE_TYPE_ENTRY_WITH_ID "LookupMap<MethodDesc *>" (Word.sizeofW "LookupMap<MethodDesc *>")
  MAKE_BASE_TYPE_ENTRY_WITH_ID "LookupMapBase" LookupMap_MethodDesc_Ptr (baseoffset "LookupMap<MethodDesc *>" "LookupMapBase" "pNext")

  let BucketTypeId ← MAKE_TYPE_ENTRY_WITH_ID "Bucket" (Word.sizeofW "Bucket")
  MAKE_FIELD_ENTRY_WITH_ID BucketTypeId "m_rgKeys" (Word.offsetofW "Bucket" "m_rgKeys")
  MAKE_FIELD_ENTRY_WITH_ID BucketTypeId "m_rgValues" (Word.offsetofW "Bucket" "m_rgValues")

  let HashMapTypeId ← MAKE_TYPE_ENTRY_WITH_ID "HashMap" (Word.sizeofW "HashMap")
  MAKE_FIELD_ENTRY_WITH_ID HashMapTypeId "m_rgBuckets" (Word.offsetofW "HashMap" "m_rgBuckets")

  let PtrHashMapTypeId ← MAKE_TYPE_ENTRY_WITH_ID "PtrHashMap" (Word.sizeofW "PtrHashMap")
  MAKE_FIELD_ENTRY_WITH_ID PtrHashMapTypeId "m_HashMap" (Word.offsetofW "PtrHashMap" "m_HashMap")

  MAKE_GLOBAL_ENTRY "AppDomain::m_pTheAppDomain" (Word.addrofW "AppDomain::m_pTheAppDomain")
  let AppDomainTypeId ← MAKE_TYPE_ENTRY_WITH_ID "AppDomain" (Word.sizeofW "AppDomain")
  MAKE_FIELD_ENTRY_WITH_ID AppDomainTypeId "m_Assemblies" (Word.offsetofW "AppDomain" "m_Assemblies")
  MAKE_FIELD_ENTRY_WITH_ID AppDomainTypeId "m_Stage.m_val" (Word.offsetofW "AppDomain" "m_Stage.m_val")
  MAKE_FIELD_ENTRY_WITH_ID AppDomainTypeId "m_friendlyName" (Word.offsetofW "AppDomain" "m_friendlyName")

  MAKE_GLOBAL_ENTRY "SystemDomain::m_pSystemDomain" (Word.addrofW "SystemDomain::m_pSystemDomain")
  let SystemDomainTypeId ← MAKE_TYPE_ENTRY_WITH_ID "SystemDomain" (Word.sizeofW "SystemDomain")
  MAKE_FIELD_ENTRY_WITH_ID SystemDomainTypeId "m_pSystemAssembly" (Word.offsetofW "SystemDomain" "m_pSystemAssembly")
  MAKE_FIELD_ENTRY_WITH_ID SystemDomainTypeId "m_GlobalAllocator" (Word.offsetofW "SystemDomain" "m_GlobalAllocator")

  let AppDomain_DomainAssemblyList ← MAKE_TYPE_ENTRY_WITH_ID "AppDomain::DomainAssemblyList" (Word.sizeofW "AppDomain::DomainAssemblyList")
  MAKE_FIELD_ENTRY_WITH_ID AppDomain_DomainAssemblyList "m_array" (Word.offsetofW "AppDomain::DomainAssemblyList" "m_array")

  let DomainAssemblyTypeId ← MAKE_TYPE_ENTRY_WITH_ID "DomainAssembly" (Word.sizeofW "DomainAssembly")
  MAKE_FIELD_ENTRY_WITH_ID DomainAssemblyTypeId "m_pAssembly" (Word.offsetofW "DomainAssembly" "m_pAssembly")

  let ArrayListBaseTypeId ← MAKE_TYPE_ENTRY_WITH_ID "ArrayListBase" (Word.sizeofW "ArrayListBase")
  MAKE_FIELD_ENTRY_WITH_ID ArrayListBaseTypeId "m_count" (Word.offsetofW "ArrayListBase" "m_count")
  MAKE_FIELD_ENTRY_WITH_ID ArrayListBaseTypeId "m_firstBlock" (Word.offsetofW "ArrayListBase" "m_firstBlock")

  let ArrayListTypeId ← MAKE_TYPE_ENTRY_WITH_ID "ArrayList" (Word.sizeofW "ArrayList")
  MAKE_BASE_TYPE_ENTRY_WITH_ID "ArrayListBase" ArrayListTypeId (baseoffset "ArrayList" "ArrayListBase" "m_count")

  let DictionaryTypeId ← MAKE_TYPE_ENTRY_WITH_ID "Dictionary" (Word.sizeofW "Dictionary")
  MAKE_FIELD_ENTRY_WITH_ID DictionaryTypeId "m_pEntries" (Word.offsetofW "Dictionary" "m_pEntries")

  let ArrayListBase_ArrayListBlock ← MAKE_TYPE_ENTRY_WITH_ID "ArrayListBase::ArrayListBlock" (Word.sizeofW "ArrayListBase::ArrayListBlock")
  MAKE_FIELD_ENTRY_WITH_ID ArrayListBase_ArrayListBlock "m_next" (Word.offsetofW "ArrayListBase::ArrayListBlock" "m_next")
  MAKE_FIELD_ENTRY_WITH_ID ArrayListBase_ArrayListBlock "m_blockSize" (Word.offsetofW "ArrayListBase::ArrayListBlock" "m_blockSize")
  MAKE_FIELD_ENTRY_WITH_ID ArrayListBase_ArrayListBlock "m_array" (Word.offsetofW "ArrayListBase::ArrayListBlock" "m_array")

  let AssemblyTypeId ← MAKE_TYPE_ENTRY_WITH_ID "Assembly" (Word.sizeofW "Assembly")
  MAKE_FIELD_ENTRY_WITH_ID AssemblyTypeId "m_pPEAssembly" (Word.offsetofW "Assembly" "m_pPEAssembly")
  MAKE_FIELD_ENTRY_WITH_ID AssemblyTypeId "m_pModule" (Word.offsetofW "Assembly" "m_pModule")
  MAKE_FIELD_ENTRY_WITH_ID AssemblyTypeId "m_pClassLoader" (Word.offsetofW "Assembly" "m_pClassLoader")

  let _ClassLoaderTypeId ← MAKE_TYPE_ENTRY_WITH_ID "ClassLoader" (Word.sizeofW "ClassLoader")

  let ReadyToRunInfoTypeId ← MAKE_TYPE_ENTRY_WITH_ID "ReadyToRunInfo" (Word.sizeofW "ReadyToRunInfo")
  MAKE_FIELD_ENTRY_WITH_ID ReadyToRunInfoTypeId "m_nRuntimeFunctions" (Word.offsetofW "ReadyToRunInfo" "m_nRuntimeFunctions")
  MAKE_FIELD_ENTRY_WITH_ID ReadyToRunInfoTypeId "m_pRuntimeFunctions" (Word.offsetofW "ReadyToRunInfo" "m_pRuntimeFunctions")
  MAKE_FIELD_ENTRY_WITH_ID ReadyToRunInfoTypeId "m_pCompositeInfo" (Word.offsetofW "ReadyToRunInfo" "m_pCompositeInfo")
  MAKE_FIELD_ENTRY_WITH_ID ReadyToRunInfoTypeId "m_entryPointToMethodDescMap" (Word.offsetofW "ReadyToRunInfo" "m_entryPointToMethodDescMap")

  let RUNTIME_FUNCTIONTypeId ← MAKE_TYPE_ENTRY_WITH_ID "RUNTIME_FUNCTION" (Word.sizeofW "RUNTIME_FUNCTION")
  MAKE_FIELD_ENTRY_WITH_ID RUNTIME_FUNCTIONTypeId "BeginAddress" (Word.offsetofW "RUNTIME_FUNCTION" "BeginAddress")
  MAKE_FIELD_ENTRY_WITH_ID RUNTIME_FUNCTIONTypeId "EndAddress" (Word.offsetofW "RUNTIME_FUNCTION" "EndAddress")
  MAKE_FIELD_ENTRY_WITH_ID RUNTIME_FUNCTIONTypeId "UnwindData" (Word.offsetofW "RUNTIME_FUNCTION" "UnwindData")

  MAKE_GLOBAL_ENTRY "g_gcDacGlobals" (Word.addrofW "g_gcDacGlobals")
  MAKE_GLOBAL_ENTRY "g_pFreeObjectMethodTable" (Word.addrofW "g_pFreeObjectMethodTable")

  let GcDacVarsTypeId ← MAKE_TYPE_ENTRY_WITH_ID "GcDacVars" (Word.sizeofW "GcDacVars")
  MAKE_FIELD_ENTRY_WITH_ID GcDacVarsTypeId "major_version_number" (Word.offsetofW "GcDacVars" "major_version_number")
  MAKE_FIELD_ENTRY_WITH_ID GcDacVarsTypeId "minor_version_number" (Word.offsetofW "GcDacVars" "minor_version_number")
  MAKE_FIELD_ENTRY_WITH_ID GcDacVarsTypeId "generation_size" (Word.offsetofW "GcDacVars" "generation_size")
  MAKE_FIELD_ENTRY_WITH_ID GcDacVarsTypeId "total_generation_count" (Word.offsetofW "GcDacVars" "total_generation_count")
  MAKE_FIELD_ENTRY_WITH_ID GcDacVarsTypeId "built_with_svr" (Word.offsetofW "GcDacVars" "built_with_svr")
  MAKE_FIELD_ENTRY_WITH_ID GcDacVarsTypeId "finalize_queue" (Word.offsetofW "GcDacVars" "finalize_queue")
  MAKE_FIELD_ENTRY_WITH_ID GcDacVarsTypeId "generation_table" (Word.offsetofW "GcDacVars" "generation_table")
  MAKE_FIELD_ENTRY_WITH_ID GcDacVarsTypeId "ephemeral_heap_segment" (Word.offsetofW "GcDacVars" "ephemeral_heap_segment")
  MAKE_FIELD_ENTRY_WITH_ID GcDacVarsTypeId "alloc_allocated" (Word.offsetofW "GcDacVars" "alloc_allocated")
  MAKE_FIELD_ENTRY_WITH_ID GcDacVarsTypeId "n_heaps" (Word.offsetofW "GcDacVars" "n_heaps")
  MAKE_FIELD_ENTRY_WITH_ID GcDacVarsTypeId "g_heaps" (Word.offsetofW "GcDacVars" "g_heaps")

  let dac_gc_heapTypeId ← MAKE_TYPE_ENTRY_WITH_ID "dac_gc_heap" (Word.sizeofW "dac_gc_heap")
  MAKE_FIELD_ENTRY_WITH_ID dac_gc_heapTypeId "alloc_allocated" (Word.offsetofW "dac_gc_heap" "alloc_allocated")
  MAKE_FIELD_ENTRY_WITH_ID dac_gc_heapTypeId "ephemeral_heap_segment" (Word.offsetofW "dac_gc_heap" "ephemeral_heap_segment")
  MAKE_FIELD_ENTRY_WITH_ID dac_gc_heapTypeId "finalize_queue" (Word.offsetofW "dac_gc_heap" "finalize_queue")
  MAKE_FIELD_ENTRY_WITH_ID dac_gc_heapTypeId "generation_table" (Word.offsetofW "dac_gc_heap" "generation_table")

  let gc_alloc_contextTypeId ← MAKE_TYPE_ENTRY_WITH_ID "gc_alloc_context" (Word.sizeofW "gc_alloc_context")
  MAKE_FIELD_ENTRY_WITH_ID gc_alloc_contextTypeId "alloc_ptr" (Word.offsetofW "gc_alloc_context" "alloc_ptr")
  MAKE_FIELD_ENTRY_WITH_ID gc_alloc_contextTypeId "alloc_limit" (Word.offsetofW "gc_alloc_context" "alloc_limit")
  MAKE_FIELD_ENTRY_WITH_ID gc_alloc_contextTypeId "alloc_bytes" (Word.offsetofW "gc_alloc_context" "alloc_bytes")
  MAKE_FIELD_ENTRY_WITH_ID gc_alloc_contextTypeId "alloc_bytes_uoh" (Word.offsetofW "gc_alloc_context" "alloc_bytes_uoh")
  MAKE_FIELD_ENTRY_WITH_ID gc_alloc_contextTypeId "alloc_count" (Word.offsetofW "gc_alloc_context" "alloc_count")

  let dac_generationTypeId ← MAKE_TYPE_ENTRY_WITH_ID "dac_generation" (Word.sizeofW "dac_generation")
  MAKE_FIELD_ENTRY_WITH_ID dac_generationTypeId "allocation_context" (Word.offsetofW "dac_generation" "allocation_context")
  MAKE_FIELD_ENTRY_WITH_ID dac_generationTypeId "start_segment" (Word.offsetofW "dac_generation" "start_segment")
  MAKE_FIELD_ENTRY_WITH_ID dac_generationTypeId "allocation_start" (Word.offsetofW "dac_generation" "allocation_start")

  let dac_heap_segmentTypeId ← MAKE_TYPE_ENTRY_WITH_ID "dac_heap_segment" (Word.sizeofW "dac_heap_segment")
  MAKE_FIELD_ENTRY_WITH_ID dac_heap_segmentTypeId "allocated" (Word.offsetofW "dac_heap_segment" "allocated")
  MAKE_FIELD_ENTRY_WITH_ID dac_heap_segmentTypeId "committed" (Word.offsetofW "dac_heap_segment" "committed")
  MAKE_FIELD_ENTRY_WITH_ID dac_heap_segmentTypeId "reserved" (Word.offsetofW "dac_heap_segment" "reserved")
  MAKE_FIELD_ENTRY_WITH_ID dac_heap_segmentTypeId "used" (Word.offsetofW "dac_heap_segment" "used")
  MAKE_FIELD_ENTRY_WITH_ID dac_heap_segmentTypeId "mem" (Word.offsetofW "dac_heap_segment" "mem")
  MAKE_FIELD_ENTRY_WITH_ID dac_heap_segmentTypeId "flags" (Word.offsetofW "dac_heap_segment" "flags")
  MAKE_FIELD_ENTRY_WITH_ID dac_heap_segmentTypeId "next" (Word.offsetofW "dac_heap_segment" "next")
  MAKE_FIELD_ENTRY_WITH_ID dac_heap_segmentTypeId "background_allocated" (Word.offsetofW "dac_heap_segment" "background_allocated")
  MAKE_FIELD_ENTRY_WITH_ID dac_heap_segmentTypeId "heap" (Word.offsetofW "dac_heap_segment" "heap")

  let SBufferTypeId ← MAKE_TYPE_ENTRY_WITH_ID "SBuffer" (Word.sizeofW "SBuffer")
  MAKE_FIELD_ENTRY_WITH_ID SBufferTypeId "m_size" (Word.offsetofW "SBuffer" "m_size")
  MAKE_FIELD_ENTRY_WITH_ID SBufferTypeId "m_flags" (Word.offsetofW "SBuffer" "m_flags")
  MAKE_FIELD_ENTRY_WITH_ID SBufferTypeId "m_buffer" (Word.offsetofW "SBuffer" "m_buffer")

  let SStringTypeId ← MAKE_TYPE_ENTRY_WITH_ID "SString" (Word.sizeofW "SString")
  MAKE_BASE_TYPE_ENTRY_WITH_ID "SBuffer" SStringTypeId (baseoffset "SString" "SBuffer" "m_size")

  let HeapListTypeId ← MAKE_TYPE_ENTRY_WITH_ID "HeapList" (Word.sizeofW "HeapList")
  MAKE_FIELD_ENTRY_WITH_ID HeapListTypeId "hpNext" (Word.offsetofW "HeapList" "hpNext")
  MAKE_FIELD_ENTRY_WITH_ID HeapListTypeId "startAddress" (Word.offsetofW "HeapList" "startAddress")
  MAKE_FIELD_ENTRY_WITH_ID HeapListTypeId "endAddress" (Word.offsetofW "HeapList" "endAddress")
  MAKE_FIELD_ENTRY_WITH_ID HeapListTypeId "mapBase" (Word.offsetofW "HeapList" "mapBase")
  MAKE_FIELD_ENTRY_WITH_ID HeapListTypeId "pHdrMap" (Word.offsetofW "HeapList" "pHdrMap")

  let ObjectTypeId ← MAKE_TYPE_ENTRY_WITH_ID "Object" (Word.sizeofW "Object")
  MAKE_FIELD_ENTRY_WITH_ID ObjectTypeId "m_pMethTab" (Word.offsetofW "Object" "m_pMethTab")

  let ExceptionObjectTypeId ← MAKE_TYPE_ENTRY_WITH_ID "ExceptionObject" (Word.sizeofW "ExceptionObject")
  MAKE_BASE_TYPE_ENTRY_WITH_ID "Object" ExceptionObjectTypeId (baseoffset "ExceptionObject" "Object" "m_pMethTab")
  MAKE_FIELD_ENTRY_WITH_ID ExceptionObjectTypeId "_message" (Word.offsetofW "ExceptionObject" "_message")
  MAKE_FIELD_ENTRY_WITH_ID ExceptionObjectTypeId "_innerException" (Word.offsetofW "ExceptionObject" "_innerException")
  MAKE_FIELD_ENTRY_WITH_ID ExceptionObjectTypeId "_stackTrace" (Word.offsetofW "ExceptionObject" "_stackTrace")

  let StringObjectTypeId ← MAKE_TYPE_ENTRY_WITH_ID "StringObject" (Word.sizeofW "StringObject")
  MAKE_BASE_TYPE_ENTRY_WITH_ID "Object" StringObjectTypeId (baseoffset "StringObject" "Object" "m_pMethTab")
  MAKE_FIELD_ENTRY_WITH_ID StringObjectTypeId "m_StringLength" (Word.offsetofW "StringObject" "m_StringLength")

  let ArrayBaseTypeId ← MAKE_TYPE_ENTRY_WITH_ID "ArrayBase" (Word.sizeofW "ArrayBase")
  MAKE_BASE_TYPE_ENTRY_WITH_ID "Object" ArrayBaseTypeId (baseoffset "ArrayBase" "Object" "m_pMethTab")
  MAKE_FIELD_ENTRY_WITH_ID ArrayBaseTypeId "m_NumComponents" (Word.offsetofW "ArrayBase" "m_NumComponents")

  let StackTraceArray_ArrayHeader ← MAKE_TYPE_ENTRY_WITH_ID "StackTraceArray::ArrayHeader" (Word.sizeofW "StackTraceArray::ArrayHeader")
  MAKE_FIELD_ENTRY_WITH_ID StackTraceArray_ArrayHeader "m_size" (Word.offsetofW "StackTraceArray::ArrayHeader" "m_size")
  MAKE_FIELD_ENTRY_WITH_ID StackTraceArray_ArrayHeader "m_thread" (Word.offsetofW "StackTraceArray::ArrayHeader" "m_thread")

  let StackTraceElementTypeId ← MAKE_TYPE_ENTRY_WITH_ID "StackTraceElement" (Word.sizeofW "StackTraceElement")
  MAKE_FIELD_ENTRY_WITH_ID StackTraceElementTypeId "ip" (Word.offsetofW "StackTraceElement" "ip")
  MAKE_FIELD_ENTRY_WITH_ID StackTraceElementTypeId "sp" (Word.offsetofW "StackTraceElement" "sp")
  MAKE_FIELD_ENTRY_WITH_ID StackTraceElementTypeId "pFunc" (Word.offsetofW "StackTraceElement" "pFunc")
  MAKE_FIELD_ENTRY_WITH_ID StackTraceElementTypeId "flags" (Word.offsetofW "StackTraceElement" "flags")

  let _hpRealCodeHdrTypeId ← MAKE_TYPE_ENTRY_WITH_ID "_hpRealCodeHdr" (Word.sizeofW "_hpRealCodeHdr")
  MAKE_FIELD_ENTRY_WITH_ID _hpRealCodeHdrTypeId "phdrDebugInfo" (Word.offsetofW "_hpRealCodeHdr" "phdrDebugInfo")
  MAKE_FIELD_ENTRY_WITH_ID _hpRealCodeHdrTypeId "phdrJitEHInfo" (Word.offsetofW "_hpRealCodeHdr" "phdrJitEHInfo")
  MAKE_FIELD_ENTRY_WITH_ID _hpRealCodeHdrTypeId "phdrJitGCInfo" (Word.offsetofW "_hpRealCodeHdr" "phdrJitGCInfo")
  MAKE_FIELD_ENTRY_WITH_ID _hpRealCodeHdrTypeId "phdrMDesc" (Word.offsetofW "_hpRealCodeHdr" "phdrMDesc")
  MAKE_FIELD_ENTRY_WITH_ID _hpRealCodeHdrTypeId "unwindInfos" (Word.offsetofW "_hpRealCodeHdr" "unwindInfos")

  MAKE_GLOBAL_ENTRY "ExecutionManager::m_pEEJitManager" (Word.addrofW "ExecutionManager::m_pEEJitManager")
  let _EEJitManagerTypeId ← MAKE_TYPE_ENTRY_WITH_ID "EEJitManager" (Word.sizeofW "EEJitManager")

  MAKE_GLOBAL_ENTRY "ExecutionManager::g_codeRangeMap" (Word.addrofW "ExecutionManager::g_codeRangeMap")
  let RangeSectionMapDataTypeId ← MAKE_TYPE_ENTRY_WITH_ID "RangeSectionMapData" (Word.sizeofW "RangeSectionMapData")
  MAKE_FIELD_ENTRY_WITH_ID RangeSectionMapDataTypeId "Data" (Word.offsetofW "RangeSectionMapData" "Data")

  MAKE_GLOBAL_ENTRY "ExecutionManager::m_pReadyToRunJitManager" (Word.addrofW "ExecutionManager::m_pReadyToRunJitManager")
  let _ReadyToRunJitManagerTypeId ← MAKE_TYPE_ENTRY_WITH_ID "ReadyToRunJitManager" (Word.sizeofW "ReadyToRunJitManager")

  MAKE_DEFINE_ENTRY "MinObjectSize" (Word.constW "MIN_OBJECT_SIZE")
  if fehf then
    MAKE_DEFINE_ENTRY "FEATURE_EH_FUNCLETS" (Word.constW "FEATURE_EH_FUNCLETS")
  MAKE_DEFINE_ENTRY "UNION_METHODTABLE" (Word.constW "MethodTable::UNION_METHODTABLE")

/-!  Run equations: one success and one failure characterization per
builder operation, relating a single step to its pre-state. -/

theorem MAKE_GLOBAL_ENTRY_run_ok (name : String) (addr : Word) (st : BuilderState)
    (h : st.globals.length < DebugGlobalsArraySize) :
    StateT.run (MAKE_GLOBAL_ENTRY name addr) st =
      .ok ((), { st with globals := st.globals ++ [⟨name, addr⟩],
                         events := st.events ++ [Event.globalRow] }) := by
  have h2 : (st.globals ++ [(⟨name, addr⟩ : DebugGlobalRow)]).length ≤ DebugGlobalsArraySize := by
    simp only [List.length_append, List.length_singleton]; omega
  simp only [MAKE_GLOBAL_ENTRY, writeNext, assertE, StateT.run, if_pos h, bind, Except.bind,
    if_pos h2, pure, Except.pure]

theorem MAKE_GLOBAL_ENTRY_run_err (name : String) (addr : Word) (st : BuilderState)
    (h : DebugGlobalsArraySize ≤ st.globals.length) :
    StateT.run (MAKE_GLOBAL_ENTRY name addr) st = .error .outOfBoundsWrite := by
  simp only [MAKE_GLOBAL_ENTRY, writeNext, assertE, StateT.run, if_neg (Nat.not_lt.mpr h),
    bind, Except.bind]

theorem MAKE_TYPE_ENTRY_WITH_ID_run_ok (tn : String) (sz : Word) (st : BuilderState)
    (h : st.types.length < DebugTypesArraySize) :
    StateT.run (MAKE_TYPE_ENTRY_WITH_ID tn sz) st =
      .ok (st.types.length,
           { st with types := st.types ++ [⟨tn, sz⟩],
                     events := st.events ++ [Event.typeRow st.types.length] }) := by
  have h2 : (st.types ++ [(⟨tn, sz⟩ : DebugTypeRow)]).length ≤ DebugTypesArraySize := by
    simp only [List.length_append, List.length_singleton]; omega
  simp only [MAKE_TYPE_ENTRY_WITH_ID, writeNext, assertE, StateT.run, if_pos h, bind, Except.bind,
    if_pos h2, pure, Except.pure]

theorem MAKE_TYPE_ENTRY_WITH_ID_run_err (tn : String) (sz : Word) (st : BuilderState)
    (h : DebugTypesArraySize ≤ st.types.length) :
    StateT.run (MAKE_TYPE_ENTRY_WITH_ID tn sz) st = .error .outOfBoundsWrite := by
  simp only [MAKE_TYPE_ENTRY_WITH_ID, writeNext, assertE, StateT.run, if_neg (Nat.not_lt.mpr h),
    bind, Except.bind]

theorem MAKE_FIELD_ENTRY_WITH_ID_run_ok (tid : Nat) (fn : String) (off : Word) (st : BuilderState)
    (h : st.fields.length < DebugFieldsArraySize) :
    StateT.run (MAKE_FIELD_ENTRY_WITH_ID tid fn off) st =
      .ok ((), { st with fields := st.fields ++ [⟨fn, tid, off⟩],
                         events := st.events ++ [Event.fieldRow tid st.types.length] }) := by
  have h2 : (st.fields ++ [(⟨fn, tid, off⟩ : DebugMemberOffsetRow)]).length ≤ DebugFieldsArraySize := by
    simp only [List.length_append, List.length_singleton]; omega
  simp only [MAKE_FIELD_ENTRY_WITH_ID, writeNext, assertE, StateT.run, if_pos h, bind, Except.bind,
    if_pos h2, pure, Except.pure]

theorem MAKE_FIELD_ENTRY_WITH_ID_run_err (tid : Nat) (fn : String) (off : Word) (st : BuilderState)
    (h : DebugFieldsArraySize ≤ st.fields.length) :
    StateT.run (MAKE_FIELD_ENTRY_WITH_ID tid fn off) st = .error .outOfBoundsWrite := by
  simp only [MAKE_FIELD_ENTRY_WITH_ID, writeNext, assertE, StateT.run, if_neg (Nat.not_lt.mpr h),
    bind, Except.bind]

theorem MAKE_BASE_TYPE_ENTRY_WITH_ID_run_ok (bn : String) (tid : Nat) (off : Word)
    (st : BuilderState) (h : st.bases.length < DebugBasesArraySize) :
    StateT.run (MAKE_BASE_TYPE_ENTRY_WITH_ID bn tid off) st =
      .ok ((), { st with bases := st.bases ++ [⟨bn, tid, off⟩],
                         events := st.events ++ [Event.baseRow tid st.types.length] }) := by
  have h2 : (st.bases ++ [(⟨bn, tid, off⟩ : DebugMemberOffsetRow)]).length ≤ DebugBasesArraySize := by
    simp only [List.length_append, List.length_singleton]; omega
  simp only [MAKE_BASE_TYPE_ENTRY_WITH_ID, writeNext, assertE, StateT.run, if_pos h, bind,
    Except.bind, if_pos h2, pure, Except.pure]

theorem MAKE_BASE_TYPE_ENTRY_WITH_ID_run_err (bn : String) (tid : Nat) (off : Word)
    (st : BuilderState) (h : DebugBasesArraySize ≤ st.bases.length) :
    StateT.run (MAKE_BASE_TYPE_ENTRY_WITH_ID bn tid off) st = .error .outOfBoundsWrite := by
  simp only [MAKE_BASE_TYPE_ENTRY_WITH_ID, writeNext, assertE, StateT.run,
    if_neg (Nat.not_lt.mpr h), bind, Except.bind]

theorem MAKE_DEFINE_ENTRY_run_ok (name : String) (v : Word) (st : BuilderState)
    (h : st.defines.length < DebugDefinesArraySize) :
    StateT.run (MAKE_DEFINE_ENTRY name v) st =
      .ok ((), { st with defines := st.defines ++ [⟨name, v⟩],
                         events := st.events ++ [Event.defineRow] }) := by
  have h2 : (st.defines ++ [(⟨name, v⟩ : DebugDefineRow)]).length ≤ DebugDefinesArraySize := by
    simp only [List.length_append, List.length_singleton]; omega
  simp only [MAKE_DEFINE_ENTRY, writeNext, assertE, StateT.run, if_pos h, bind, Except.bind,
    if_pos h2, pure, Except.pure]

theorem MAKE_DEFINE_ENTRY_run_err (name : String) (v : Word) (st : BuilderState)
    (h : DebugDefinesArraySize ≤ st.defines.length) :
    StateT.run (MAKE_DEFINE_ENTRY name v) st = .error .outOfBoundsWrite := by
  simp only [MAKE_DEFINE_ENTRY, writeNext, assertE, StateT.run, if_neg (Nat.not_lt.mpr h),
    bind, Except.bind]

theorem MAKE_TABLE_run_ok (name : String) (addr : TablePtr) (count : Nat) (st : BuilderState)
    (h : st.tables.length < DebugTablesArraySize) :
    StateT.run (MAKE_TABLE name addr count) st =
      .ok ((), { st with tables := st.tables ++ [⟨name, addr, count⟩],
                         events := st.events ++ [Event.dirWrite name count] }) := by
  have h2 : (st.tables ++ [(⟨name, addr, count⟩ : DebugTable)]).length ≤ DebugTablesArraySize := by
    simp only [List.length_append, List.length_singleton]; omega
  simp only [MAKE_TABLE, writeNext, assertE, StateT.run, if_pos h, bind, Except.bind,
    if_pos h2, pure, Except.pure]

theorem MAKE_TABLE_run_err (name : String) (addr : TablePtr) (count : Nat) (st : BuilderState)
    (h : DebugTablesArraySize ≤ st.tables.length) :
    StateT.run (MAKE_TABLE name addr count) st = .error .outOfBoundsWrite := by
  simp only [MAKE_TABLE, writeNext, assertE, StateT.run, if_neg (Nat.not_lt.mpr h),
    bind, Except.bind]

theorem setDebugTableCount_run (st : BuilderState) :
    StateT.run setDebugTableCount st =
      .ok ((), { st with header := { st.header with DebugTableCount := st.tables.length },
                         events := st.events ++ [Event.countWrite st.tables.length] }) := rfl

/-- The five directory entries the finalization tail writes, given the
final row-table contents. -/
def directoryOf (st : BuilderState) : List DebugTable :=
  [⟨"Global", TablePtr.s_DebugGlobals, st.globals.length⟩,
   ⟨"Type", TablePtr.s_DebugTypes, st.types.length⟩,
   ⟨"Field", TablePtr.s_DebugFields, st.fields.length⟩,
   ⟨"Base", TablePtr.s_DebugBases, st.bases.length⟩,
   ⟨"Define", TablePtr.s_DebugDefines, st.defines.length⟩]

theorem bldBindRun (x : Builder α) (f : α → Builder β) (st : BuilderState) :
    StateT.run (x >>= f) st = (StateT.run x st).bind fun r => StateT.run (f r.1) r.2 := rfl

theorem bldGetRun (st : BuilderState) :
    StateT.run (get : Builder BuilderState) st = .ok (st, st) := rfl

theorem exBindOk (r : α) (f : α → Except ε β) : (Except.ok r).bind f = f r := rfl

theorem bldPureRun (a : α) (st : BuilderState) :
    StateT.run (pure a : Builder α) st = .ok (a, st) := rfl

theorem FinalizeTables_run (st : BuilderState) (h : st.tables = []) :
    StateT.run FinalizeTables st =
      .ok ((), { st with
        tables := directoryOf st,
        header := { st.header with DebugTableCount := 5 },
        events := st.events ++
          [Event.dirWrite "Global" st.globals.length,
           Event.dirWrite "Type" st.types.length,
           Event.dirWrite "Field" st.fields.length,
           Event.dirWrite "Base" st.bases.length,
           Event.dirWrite "Define" st.defines.length,
           Event.countWrite 5] }) := by
  simp only [FinalizeTables, bldBindRun, bldGetRun, exBindOk]
  rw [MAKE_TABLE_run_ok _ _ _ _ (by simp [h, DebugTablesArraySize])]
  simp only [exBindOk, bldBindRun, bldGetRun]
  rw [MAKE_TABLE_run_ok _ _ _ _ (by simp [h, DebugTablesArraySize])]
  simp only [exBindOk, bldBindRun, bldGetRun]
  rw [MAKE_TABLE_run_ok _ _ _ _ (by simp [h, DebugTablesArraySize])]
  simp only [exBindOk, bldBindRun, bldGetRun]
  rw [MAKE_TABLE_run_ok _ _ _ _ (by simp [h, DebugTablesArraySize])]
  simp only [exBindOk, bldBindRun, bldGetRun]
  rw [MAKE_TABLE_run_ok _ _ _ _ (by simp [h, DebugTablesArraySize])]
  simp only [exBindOk, bldBindRun, bldGetRun, setDebugTableCount_run, directoryOf]
  simp [h, List.append_assoc]

/-- `extern "C" void PopulateClrDebugHeaders()`: the registration body
followed by the finalization tail, run from the zero-initialized state,
yielding the final state (or the fatal halt). -/
def PopulateClrDebugHeaders (fehf : Bool) : Except BuildError BuilderState :=
  (StateT.run (show Builder Unit from do registerAll fehf; FinalizeTables) initState).map (·.2)

/-- C2: capacity exceeded is fatal and atomic.  For every registration
operation, from any state whose table is already at (or past) its fixed
capacity, the operation halts the build with a fatal fault — the
checked build's out-of-bounds array write, which the `ASSERT` backstops
— and produces no successor state at all, so no row is silently
dropped, wrapped, or overwritten. -/
theorem capacity_exceeded_is_fatal :
    (∀ name addr st, DebugGlobalsArraySize ≤ st.globals.length →
       StateT.run (MAKE_GLOBAL_ENTRY name addr) st = .error .outOfBoundsWrite) ∧
    (∀ tn sz st, DebugTypesArraySize ≤ st.types.length →
       StateT.run (MAKE_TYPE_ENTRY_WITH_ID tn sz) st = .error .outOfBoundsWrite) ∧
    (∀ tid fn off st, DebugFieldsArraySize ≤ st.fields.length →
       StateT.run (MAKE_FIELD_ENTRY_WITH_ID tid fn off) st = .error .outOfBoundsWrite) ∧
    (∀ bn tid off st, DebugBasesArraySize ≤ st.bases.length →
       StateT.run (MAKE_BASE_TYPE_ENTRY_WITH_ID bn tid off) st = .error .outOfBoundsWrite) ∧
    (∀ n v st, DebugDefinesArraySize ≤ st.defines.length →
       StateT.run (MAKE_DEFINE_ENTRY n v) st = .error .outOfBoundsWrite) :=
  ⟨fun name addr st h => MAKE_GLOBAL_ENTRY_run_err name addr st h,
   fun tn sz st h => MAKE_TYPE_ENTRY_WITH_ID_run_err tn sz st h,
   fun tid fn off st h => MAKE_FIELD_ENTRY_WITH_ID_run_err tid fn off st h,
   fun bn tid off st h => MAKE_BASE_TYPE_ENTRY_WITH_ID_run_err bn tid off st h,
   fun n v st h => MAKE_DEFINE_ENTRY_run_err n v st h⟩

/-- C2 witness: one more registration than each table's capacity, from
tables filled exactly to capacity, faults fatally. -/
theorem capacity_exceeded_is_fatal_witness :
    StateT.run (MAKE_GLOBAL_ENTRY "one_more" (Word.lit 0))
      { globals := List.replicate DebugGlobalsArraySize ⟨"g", Word.lit 0⟩ } =
        .error .outOfBoundsWrite ∧
    StateT.run (MAKE_TYPE_ENTRY_WITH_ID "T" (Word.lit 0))
      { types := List.replicate DebugTypesArraySize ⟨"t", Word.lit 0⟩ } =
        .error .outOfBoundsWrite ∧
    StateT.run (MAKE_FIELD_ENTRY_WITH_ID 0 "f" (Word.lit 0))
      { fields := List.replicate DebugFieldsArraySize ⟨"f", 0, Word.lit 0⟩ } =
        .error .outOfBoundsWrite ∧
    StateT.run (MAKE_BASE_TYPE_ENTRY_WITH_ID "B" 0 (Word.lit 0))
      { bases := List.replicate DebugBasesArraySize ⟨"b", 0, Word.lit 0⟩ } =
        .error .outOfBoundsWrite ∧
    StateT.run (MAKE_DEFINE_ENTRY "D" (Word.lit 0))
      { defines := List.replicate DebugDefinesArraySize ⟨"d", Word.lit 0⟩ } =
        .error .outOfBoundsWrite :=
  ⟨capacity_exceeded_is_fatal.1 _ _ _ (by decide),
   capacity_exceeded_is_fatal.2.1 _ _ _ (by decide),
   capacity_exceeded_is_fatal.2.2.1 _ _ _ _ (by decide),
   capacity_exceeded_is_fatal.2.2.2.1 _ _ _ _ (by decide),
   capacity_exceeded_is_fatal.2.2.2.2 _ _ _ (by decide)⟩

/-- The specification's `RegisterType` is `MAKE_TYPE_ENTRY`; this runs
one `RegisterType` per element of `calls`, in order, collecting the
returned TypeIds. -/
def runRegisterTypes : List (String × Word) → Builder (List Nat)
  | [] => pure []
  | c :: rest => do
      let tid ← MAKE_TYPE_ENTRY_WITH_ID c.1 c.2
      let tids ← runRegisterTypes rest
      pure (tid :: tids)

theorem runRegisterTypes_run (calls : List (String × Word)) (st : BuilderState)
    (h : st.types.length + calls.length ≤ DebugTypesArraySize) :
    ∃ r, StateT.run (runRegisterTypes calls) st = .ok r ∧
      r.1 = List.range' st.types.length calls.length ∧
      r.2.types.length = st.types.length + calls.length := by
  induction calls generalizing st with
  | nil => exact ⟨([], st), rfl, by simp, by simp⟩
  | cons c rest ih =>
    have hlt : st.types.length < DebugTypesArraySize := by
      simp only [List.length_cons] at h; omega
    obtain ⟨r, hr, hids, hlen⟩ := ih
      { st with types := st.types ++ [⟨c.1, c.2⟩],
                events := st.events ++ [Event.typeRow st.types.length] }
      (by simp only [List.length_append, List.length_singleton]
          simp only [List.length_cons] at h; omega)
    dsimp only at hids hlen
    simp only [List.length_append, List.length_singleton] at hids hlen
    refine ⟨(st.types.length :: r.1, r.2), ?_, ?_, ?_⟩
    · simp only [runRegisterTypes, bldBindRun]
      rw [MAKE_TYPE_ENTRY_WITH_ID_run_ok _ _ _ hlt]
      simp only [exBindOk, bldBindRun, hr]
      rfl
    · simp only [List.length_cons, List.range'_succ, hids]
    · simp only [hlen, List.length_cons]
      omega

/-- C4: `RegisterType` returns the new entry's zero-based index as its
TypeId.  For every in-capacity sequence of `RegisterType` calls from
the initial state, the returned values are `[0, 1, ..., N-1]`: a
strictly increasing sequence starting at 0, the Nth call returning
N-1, with no TypeId ever reused. -/
theorem register_type_returns_indices (calls : List (String × Word))
    (h : calls.length ≤ DebugTypesArraySize) :
    ∃ r, StateT.run (runRegisterTypes calls) initState = .ok r ∧
      r.1 = List.range calls.length ∧
      List.Pairwise (· < ·) r.1 ∧ r.1.Nodup ∧
      ∀ i, i < calls.length → r.1[i]? = some i := by
  obtain ⟨r, hr, hids, -⟩ := runRegisterTypes_run calls initState (by simpa [initState])
  have hrange : r.1 = List.range calls.length := by
    simpa [initState, List.range_eq_range'] using hids
  refine ⟨r, hr, hrange, ?_, ?_, ?_⟩
  · rw [hrange]; exact List.pairwise_lt_range _
  · rw [hrange]; exact List.nodup_range _
  · intro i hi; rw [hrange]; simp [List.getElem?_range hi]

/-- C4 witness: two `RegisterType` calls return `[0, 1]`. -/
theorem register_type_returns_indices_witness :
    ∃ r, StateT.run (runRegisterTypes [("Point", Word.lit 8), ("Q", Word.lit 4)]) initState =
      .ok r ∧ r.1 = [0, 1] := by
  obtain ⟨r, hr, hids, -, -, -⟩ :=
    register_type_returns_indices [("Point", Word.lit 8), ("Q", Word.lit 4)] (by decide)
  exact ⟨r, hr, by rw [hids]; decide⟩

/-- One registration call of the builder interface: the specification's
`RegisterGlobal`, `RegisterType`, `RegisterField`, `RegisterBase` and
`RegisterDefine` are the corresponding `MAKE_*` operations. -/
inductive RegCall where
  | rglobal (name : String) (addr : Word)
  | rtype (name : String) (size : Word)
  | rfield (tid : Nat) (name : String) (off : Word)
  | rbase (tid : Nat) (name : String) (off : Word)
  | rdefine (name : String) (value : Word)
deriving DecidableEq, Repr

def runRegCall : RegCall → Builder Unit
  | .rglobal n a => MAKE_GLOBAL_ENTRY n a
  | .rtype n s => do let _ ← MAKE_TYPE_ENTRY_WITH_ID n s
  | .rfield tid n o => MAKE_FIELD_ENTRY_WITH_ID tid n o
  | .rbase tid n o => MAKE_BASE_TYPE_ENTRY_WITH_ID n tid o
  | .rdefine n v => MAKE_DEFINE_ENTRY n v

def runRegCalls : List RegCall → Builder Unit
  | [] => pure ()
  | c :: rest => do runRegCall c; runRegCalls rest

/-- The Global rows a call sequence registers, in call order. -/
def globalRowsOf : List RegCall → List DebugGlobalRow
  | [] => []
  | .rglobal n a :: rest => ⟨n, a⟩ :: globalRowsOf rest
  | _ :: rest => globalRowsOf rest

/-- The Type rows a call sequence registers, in call order. -/
def typeRowsOf : List RegCall → List DebugTypeRow
  | [] => []
  | .rtype n s :: rest => ⟨n, s⟩ :: typeRowsOf rest
  | _ :: rest => typeRowsOf rest

/-- The Field rows a call sequence registers, in call order. -/
def fieldRowsOf : List RegCall → List DebugMemberOffsetRow
  | [] => []
  | .rfield t n o :: rest => ⟨n, t, o⟩ :: fieldRowsOf rest
  | _ :: rest => fieldRowsOf rest

/-- The Base rows a call sequence registers, in call order. -/
def baseRowsOf : List RegCall → List DebugMemberOffsetRow
  | [] => []
  | .rbase t n o :: rest => ⟨n, t, o⟩ :: baseRowsOf rest
  | _ :: rest => baseRowsOf rest

/-- The Define rows a call sequence registers, in call order. -/
def defineRowsOf : List RegCall → List DebugDefineRow
  | [] => []
  | .rdefine n v :: rest => ⟨n, v⟩ :: defineRowsOf rest
  | _ :: rest => defineRowsOf rest

theorem runRegCalls_run (cs : List RegCall) (st : BuilderState)
    (hg : st.globals.length + (globalRowsOf cs).length ≤ DebugGlobalsArraySize)
    (ht : st.types.length + (typeRowsOf cs).length ≤ DebugTypesArraySize)
    (hf : st.fields.length + (fieldRowsOf cs).length ≤ DebugFieldsArraySize)
    (hb : st.bases.length + (baseRowsOf cs).length ≤ DebugBasesArraySize)
    (hd : st.defines.length + (defineRowsOf cs).length ≤ DebugDefinesArraySize) :
    ∃ st', StateT.run (runRegCalls cs) st = .ok ((), st') ∧
      st'.globals = st.globals ++ globalRowsOf cs ∧
      st'.types = st.types ++ typeRowsOf cs ∧
      st'.fields = st.fields ++ fieldRowsOf cs ∧
      st'.bases = st.bases ++ baseRowsOf cs ∧
      st'.defines = st.defines ++ defineRowsOf cs ∧
      st'.tables = st.tables ∧ st'.header = st.header := by
  induction cs generalizing st with
  | nil =>
    exact ⟨st, rfl, by simp [globalRowsOf], by simp [typeRowsOf], by simp [fieldRowsOf],
      by simp [baseRowsOf], by simp [defineRowsOf], rfl, rfl⟩
  | cons c rest ih =>
    cases c with
    | rglobal n a =>
      simp only [globalRowsOf, List.length_cons] at hg
      simp only [typeRowsOf] at ht; simp only [fieldRowsOf] at hf
      simp only [baseRowsOf] at hb; simp only [defineRowsOf] at hd
      obtain ⟨st', hrun, h1, h2, h3, h4, h5, h6, h7⟩ := ih
        { st with globals := st.globals ++ [⟨n, a⟩], events := st.events ++ [Event.globalRow] }
        (by dsimp only; simp only [List.length_append, List.length_singleton]; omega)
        (by dsimp only; omega) (by dsimp only; omega) (by dsimp only; omega) (by dsimp only; omega)
      dsimp only at h1 h2 h3 h4 h5 h6 h7
      refine ⟨st', ?_, ?_, h2, h3, h4, h5, h6, h7⟩
      · simp only [runRegCalls, runRegCall, bldBindRun]
        rw [MAKE_GLOBAL_ENTRY_run_ok _ _ _ (by omega)]
        simp only [exBindOk, hrun]
      · simp only [h1, globalRowsOf, List.append_assoc, List.singleton_append]
    | rtype n s =>
      simp only [typeRowsOf, List.length_cons] at ht
      simp only [globalRowsOf] at hg; simp only [fieldRowsOf] at hf
      simp only [baseRowsOf] at hb; simp only [defineRowsOf] at hd
      obtain ⟨st', hrun, h1, h2, h3, h4, h5, h6, h7⟩ := ih
        { st with types := st.types ++ [⟨n, s⟩],
                  events := st.events ++ [Event.typeRow st.types.length] }
        (by dsimp only; omega)
        (by dsimp only; simp only [List.length_append, List.length_singleton]; omega)
        (by dsimp only; omega) (by dsimp only; omega) (by dsimp only; omega)
      dsimp only at h1 h2 h3 h4 h5 h6 h7
      refine ⟨st', ?_, h1, ?_, h3, h4, h5, h6, h7⟩
      · simp only [runRegCalls, runRegCall, bldBindRun]
        rw [MAKE_TYPE_ENTRY_WITH_ID_run_ok _ _ _ (by omega)]
        simp only [exBindOk, bldPureRun, hrun]
      · simp only [h2, typeRowsOf, List.append_assoc, List.singleton_append]
    | rfield tid n o =>
      simp only [fieldRowsOf, List.length_cons] at hf
      simp only [globalRowsOf] at hg; simp only [typeRowsOf] at ht
      simp only [baseRowsOf] at hb; simp only [defineRowsOf] at hd
      obtain ⟨st', hrun, h1, h2, h3, h4, h5, h6, h7⟩ := ih
        { st with fields := st.fields ++ [⟨n, tid, o⟩],
                  events := st.events ++ [Event.fieldRow tid st.types.length] }
        (by dsimp only; omega) (by dsimp only; omega)
        (by dsimp only; simp only [List.length_append, List.length_singleton]; omega)
        (by dsimp only; omega) (by dsimp only; omega)
      dsimp only at h1 h2 h3 h4 h5 h6 h7
      refine ⟨st', ?_, h1, h2, ?_, h4, h5, h6, h7⟩
      · simp only [runRegCalls, runRegCall, bldBindRun]
        rw [MAKE_FIELD_ENTRY_WITH_ID_run_ok _ _ _ _ (by omega)]
        simp only [exBindOk, hrun]
      · simp only [h3, fieldRowsOf, List.append_assoc, List.singleton_append]
    | rbase tid n o =>
      simp only [baseRowsOf, List.length_cons] at hb
      simp only [globalRowsOf] at hg; simp only [typeRowsOf] at ht
      simp only [fieldRowsOf] at hf; simp only [defineRowsOf] at hd
      obtain ⟨st', hrun, h1, h2, h3, h4, h5, h6, h7⟩ := ih
        { st with bases := st.bases ++ [⟨n, tid, o⟩],
                  events := st.events ++ [Event.baseRow tid st.types.length] }
        (by dsimp only; omega) (by dsimp only; omega) (by dsimp only; omega)
        (by dsimp only; simp only [List.length_append, List.length_singleton]; omega)
        (by dsimp only; omega)
      dsimp only at h1 h2 h3 h4 h5 h6 h7
      refine ⟨st', ?_, h1, h2, h3, ?_, h5, h6, h7⟩
      · simp only [runRegCalls, runRegCall, bldBindRun]
        rw [MAKE_BASE_TYPE_ENTRY_WITH_ID_run_ok _ _ _ _ (by omega)]
        simp only [exBindOk, hrun]
      · simp only [h4, baseRowsOf, List.append_assoc, List.singleton_append]
    | rdefine n v =>
      simp only [defineRowsOf, List.length_cons] at hd
      simp only [globalRowsOf] at hg; simp only [typeRowsOf] at ht
      simp only [fieldRowsOf] at hf; simp only [baseRowsOf] at hb
      obtain ⟨st', hrun, h1, h2, h3, h4, h5, h6, h7⟩ := ih
        { st with defines := st.defines ++ [⟨n, v⟩], events := st.events ++ [Event.defineRow] }
        (by dsimp only; omega) (by dsimp only; omega) (by dsimp only; omega) (by dsimp only; omega)
        (by dsimp only; simp only [List.length_append, List.length_singleton]; omega)
      dsimp only at h1 h2 h3 h4 h5 h6 h7
      refine ⟨st', ?_, h1, h2, h3, h4, ?_, h6, h7⟩
      · simp only [runRegCalls, runRegCall, bldBindRun]
        rw [MAKE_DEFINE_ENTRY_run_ok _ _ _ (by omega)]
        simp only [exBindOk, hrun]
      · simp only [h5, defineRowsOf, List.append_assoc, List.singleton_append]

/-- The specification's worked example: `RegisterType("Point", 8)`,
then `RegisterField(0, "x", 0)` and `RegisterField(0, "y", 4)` on the
returned TypeId, then the finalization tail; the computation yields
the TypeId returned for `Point`. -/
def pointExample : Builder Nat := do
  let PointTypeId ← MAKE_TYPE_ENTRY_WITH_ID "Point" (Word.lit 8)
  MAKE_FIELD_ENTRY_WITH_ID PointTypeId "x" (Word.lit 0)
  MAKE_FIELD_ENTRY_WITH_ID PointTypeId "y" (Word.lit 4)
  FinalizeTables
  pure PointTypeId

/-- C6: for any sequence of registration calls within capacity, the run
succeeds, each row table holds exactly the rows registered in that
category in registration order, and each directory entry published by
the finalization tail carries a row count equal to the number of
registrations of its category.  The specification's worked example is
included: `RegisterType("Point", 8)` returns `0`, the two subsequent
`RegisterField` calls produce the rows `{"x", 0, 0}` then `{"y", 0, 4}`,
and the Field directory entry has row count 2. -/
theorem registration_counts_and_order :
    (∀ cs : List RegCall,
      (globalRowsOf cs).length ≤ DebugGlobalsArraySize →
      (typeRowsOf cs).length ≤ DebugTypesArraySize →
      (fieldRowsOf cs).length ≤ DebugFieldsArraySize →
      (baseRowsOf cs).length ≤ DebugBasesArraySize →
      (defineRowsOf cs).length ≤ DebugDefinesArraySize →
      ∃ st, StateT.run (runRegCalls cs >>= fun _ => FinalizeTables) initState =
          .ok ((), st) ∧
        st.globals = globalRowsOf cs ∧ st.types = typeRowsOf cs ∧
        st.fields = fieldRowsOf cs ∧ st.bases = baseRowsOf cs ∧
        st.defines = defineRowsOf cs ∧
        st.tables = [⟨"Global", TablePtr.s_DebugGlobals, (globalRowsOf cs).length⟩,
                     ⟨"Type", TablePtr.s_DebugTypes, (typeRowsOf cs).length⟩,
                     ⟨"Field", TablePtr.s_DebugFields, (fieldRowsOf cs).length⟩,
                     ⟨"Base", TablePtr.s_DebugBases, (baseRowsOf cs).length⟩,
                     ⟨"Define", TablePtr.s_DebugDefines, (defineRowsOf cs).length⟩]) ∧
    (∃ ex, StateT.run pointExample initState = .ok ex ∧ ex.1 = 0 ∧
      ex.2.fields = [⟨"x", 0, Word.lit 0⟩, ⟨"y", 0, Word.lit 4⟩] ∧
      (⟨"Field", TablePtr.s_DebugFields, 2⟩ : DebugTable) ∈ ex.2.tables) := by
  constructor
  · intro cs hg ht hf hb hd
    obtain ⟨st1, hrun, h1, h2, h3, h4, h5, h6, h7⟩ := runRegCalls_run cs initState
      (by simpa [initState]) (by simpa [initState]) (by simpa [initState])
      (by simpa [initState]) (by simpa [initState])
    simp only [initState] at h1 h2 h3 h4 h5 h6
    simp only [List.nil_append] at h1 h2 h3 h4 h5
    refine ⟨{ st1 with
                tables := directoryOf st1,
                header := { st1.header with DebugTableCount := 5 },
                events := st1.events ++
                  [Event.dirWrite "Global" st1.globals.length,
                   Event.dirWrite "Type" st1.types.length,
                   Event.dirWrite "Field" st1.fields.length,
                   Event.dirWrite "Base" st1.bases.length,
                   Event.dirWrite "Define" st1.defines.length,
                   Event.countWrite 5] }, ?_, ?_, ?_, ?_, ?_, ?_, ?_⟩
    · simp only [bldBindRun, hrun, exBindOk]
      exact FinalizeTables_run st1 (by simpa using h6)
    all_goals dsimp only [directoryOf]
    · exact h1
    · exact h2
    · exact h3
    · exact h4
    · exact h5
    · rw [h1, h2, h3, h4, h5]
  · refine ⟨_, rfl, by decide, by decide, by decide⟩

/-- C6 witness: the example call sequence, run through the general
theorem, yields the two Field rows in order and a Field directory entry
with row count 2. -/
theorem registration_counts_and_order_witness :
    ∃ st, StateT.run (runRegCalls [RegCall.rtype "Point" (Word.lit 8),
        RegCall.rfield 0 "x" (Word.lit 0), RegCall.rfield 0 "y" (Word.lit 4)] >>=
          fun _ => FinalizeTables) initState =
      .ok ((), st) ∧
      st.fields = [⟨"x", 0, Word.lit 0⟩, ⟨"y", 0, Word.lit 4⟩] ∧
      (⟨"Field", TablePtr.s_DebugFields, 2⟩ : DebugTable) ∈ st.tables := by
  obtain ⟨st, hrun, -, -, hf, -, -, htab⟩ := registration_counts_and_order.1
    [RegCall.rtype "Point" (Word.lit 8), RegCall.rfield 0 "x" (Word.lit 0),
     RegCall.rfield 0 "y" (Word.lit 4)]
    (by decide) (by decide) (by decide) (by decide) (by decide)
  exact ⟨st, hrun, by rw [hf]; decide, by rw [htab]; decide⟩

instance [DecidableEq ε] [DecidableEq α] : DecidableEq (Except ε α) := fun a b =>
  match a, b with
  | .ok x, .ok y =>
      if h : x = y then isTrue (congrArg Except.ok h)
      else isFalse fun hh => h (Except.ok.inj hh)
  | .error x, .error y =>
      if h : x = y then isTrue (congrArg Except.error h)
      else isFalse fun hh => h (Except.error.inj hh)
  | .ok _, .error _ => isFalse fun hh => Except.noConfusion hh
  | .error _, .ok _ => isFalse fun hh => Except.noConfusion hh

/-- The builder run ended in success and its final state satisfies `p`. -/
def okAnd (p : BuilderState → Prop) : Except BuildError BuilderState → Prop
  | .ok st => p st
  | .error _ => False

instance (p : BuilderState → Prop) [∀ st, Decidable (p st)] :
    ∀ e, Decidable (okAnd p e) := fun e =>
  match e with
  | .ok st => inferInstanceAs (Decidable (p st))
  | .error _ => inferInstanceAs (Decidable False)

theorem okAnd_elim {p : BuilderState → Prop} {e : Except BuildError BuilderState}
    (h : okAnd p e) : ∃ st, e = .ok st ∧ p st := by
  cases e with
  | ok st => exact ⟨st, rfl, h⟩
  | error err => exact h.elim

/-- True of the single header table-count write event. -/
def isCountWrite : Event → Bool
  | .countWrite _ => true
  | _ => false

/-- The header table count a reader observes after a prefix of the
write trace: the value of the last count write so far, `0` before any
(the header's load-time value). -/
def tableCountAfter (es : List Event) : Nat :=
  es.foldl (fun acc e => match e with | .countWrite v => v | _ => acc) 0

/-- The `(stored TypeId, Type rows at creation)` pair of a Field or
Base row write event. -/
def typeRefOf : Event → Option (Nat × Nat)
  | .fieldRow tid tl => some (tid, tl)
  | .baseRow tid tl => some (tid, tl)
  | _ => none

/-- The stored TypeId of a Field row write event. -/
def fieldTidOf : Event → Option Nat
  | .fieldRow tid _ => some tid
  | _ => none

/-- The stored TypeId of a Base row write event. -/
def baseTidOf : Event → Option Nat
  | .baseRow tid _ => some tid
  | _ => none

set_option maxRecDepth 200000
set_option maxHeartbeats 4000000

/-- C1: publish-last discipline.  For the builder run (with either
`FEATURE_EH_FUNCLETS` setting): the header table count starts at 0 and
is 5 in the final state; the last write of the run is the single header
count write, with value 5; no earlier write is a count write — so every
row-table write and every directory write happens before it; the count
observed after any proper prefix of the write trace is 0; and any
prefix after which the observed count is nonzero already contains every
write of the run, i.e. a nonzero count implies the five row tables and
the directory are fully populated. -/
theorem publish_last_discipline :
    initState.header.DebugTableCount = 0 ∧
    ∀ fehf : Bool, ∃ st, PopulateClrDebugHeaders fehf = .ok st ∧
      st.header.DebugTableCount = 5 ∧
      st.events.getLast? = some (Event.countWrite 5) ∧
      (st.events.dropLast.all fun e => !isCountWrite e) = true ∧
      ((List.range st.events.length).all fun k =>
         tableCountAfter (st.events.take k) == 0) = true ∧
      ((List.range (st.events.length + 1)).all fun k =>
         (tableCountAfter (st.events.take k) == 0) || (st.events.take k == st.events)) = true := by
  refine ⟨rfl, fun fehf => okAnd_elim ?_⟩
  cases fehf <;> decide

/-- C3: after the finalization tail, the table directory is exactly the
five entries named Global, Type, Field, Base, Define, stored
contiguously in that fixed order, each aimed at the backing array of
its row category with a row count equal to that category's registered
rows, and the header's directory pointer aims at the directory array. -/
theorem directory_after_finalize :
    ∀ fehf : Bool, ∃ st, PopulateClrDebugHeaders fehf = .ok st ∧
      st.tables = [⟨"Global", TablePtr.s_DebugGlobals, st.globals.length⟩,
                   ⟨"Type", TablePtr.s_DebugTypes, st.types.length⟩,
                   ⟨"Field", TablePtr.s_DebugFields, st.fields.length⟩,
                   ⟨"Base", TablePtr.s_DebugBases, st.bases.length⟩,
                   ⟨"Define", TablePtr.s_DebugDefines, st.defines.length⟩] ∧
      st.tables.length = 5 ∧
      st.header.DebugTables = TablePtr.s_DebugTables := by
  refine fun fehf => okAnd_elim ?_
  cases fehf <;> decide

/-- C5: no forward references.  In the builder run, every Field and
Base row write stores a `TypeId` strictly smaller than the number of
Type rows existing at the moment of that write, and the rows of the
final Field and Base tables are exactly (and in order) those recorded
row writes. -/
theorem no_forward_references :
    ∀ fehf : Bool, ∃ st, PopulateClrDebugHeaders fehf = .ok st ∧
      ((st.events.filterMap typeRefOf).all fun p => decide (p.1 < p.2)) = true ∧
      st.fields.map (fun r => r.TypeId) = st.events.filterMap fieldTidOf ∧
      st.bases.map (fun r => r.TypeId) = st.events.filterMap baseTidOf := by
  refine fun fehf => okAnd_elim ?_
  cases fehf <;> decide

/-- C10: for the one fixed registration sequence of
`PopulateClrDebugHeaders`, the run succeeds (so no out-of-bounds write
occurs and no capacity assertion fails) with every row
table strictly within its declared capacity (8 globals of 50, 61 types
of 100, 147 fields of 200, 15 bases of 100, and 6 defines of 50 with
`FEATURE_EH_FUNCLETS`, 5 without) and exactly 5 directory entries. -/
theorem populate_within_capacity :
    ∀ fehf : Bool, ∃ st, PopulateClrDebugHeaders fehf = .ok st ∧
      st.globals.length = 8 ∧ st.globals.length < DebugGlobalsArraySize ∧
      st.types.length = 61 ∧ st.types.length < DebugTypesArraySize ∧
      st.fields.length = 147 ∧ st.fields.length < DebugFieldsArraySize ∧
      st.bases.length = 15 ∧ st.bases.length < DebugBasesArraySize ∧
      st.defines.length = (if fehf then 6 else 5) ∧
      st.defines.length < DebugDefinesArraySize ∧
      st.tables.length = DebugTablesArraySize := by
  refine fun fehf => okAnd_elim ?_
  cases fehf <;> decide

/-- C7: the header's identity fields are fixed and never mutated.  The
header starts with the cookie bytes `0x20 0x43 0x44 0x48` (" CDH"),
version 2.0, and those fields together with the directory pointer are
unchanged in the final state of the builder run; moreover every
registration and directory operation leaves the whole header untouched,
and the single count store changes nothing but the table count — the
count is the only header field the builder ever writes. -/
theorem header_identity_fixed :
    initState.header = { Cookie := [0x20, 0x43, 0x44, 0x48], MajorVersion := 2, MinorVersion := 0,
                         DebugTables := TablePtr.s_DebugTables, DebugTableCount := 0 } ∧
    (∀ fehf : Bool, ∃ st, PopulateClrDebugHeaders fehf = .ok st ∧
       st.header = { Cookie := [0x20, 0x43, 0x44, 0x48], MajorVersion := 2, MinorVersion := 0,
                     DebugTables := TablePtr.s_DebugTables, DebugTableCount := 5 }) ∧
    (∀ name addr st r, StateT.run (MAKE_GLOBAL_ENTRY name addr) st = .ok r →
       r.2.header = st.header) ∧
    (∀ tn sz st r, StateT.run (MAKE_TYPE_ENTRY_WITH_ID tn sz) st = .ok r →
       r.2.header = st.header) ∧
    (∀ tid fn off st r, StateT.run (MAKE_FIELD_ENTRY_WITH_ID tid fn off) st = .ok r →
       r.2.header = st.header) ∧
    (∀ bn tid off st r, StateT.run (MAKE_BASE_TYPE_ENTRY_WITH_ID bn tid off) st = .ok r →
       r.2.header = st.header) ∧
    (∀ n v st r, StateT.run (MAKE_DEFINE_ENTRY n v) st = .ok r →
       r.2.header = st.header) ∧
    (∀ n a c st r, StateT.run (MAKE_TABLE n a c) st = .ok r →
       r.2.header = st.header) ∧
    (∀ st r, StateT.run setDebugTableCount st = .ok r →
       r.2.header.Cookie = st.header.Cookie ∧
       r.2.header.MajorVersion = st.header.MajorVersion ∧
       r.2.header.MinorVersion = st.header.MinorVersion ∧
       r.2.header.DebugTables = st.header.DebugTables) := by
  refine ⟨rfl, ?_, ?_, ?_, ?_, ?_, ?_, ?_, ?_⟩
  · refine fun fehf => okAnd_elim ?_
    cases fehf <;> decide
  · intro name addr st r h
    by_cases hc : st.globals.length < DebugGlobalsArraySize
    · rw [MAKE_GLOBAL_ENTRY_run_ok _ _ _ hc] at h
      cases h; rfl
    · rw [MAKE_GLOBAL_ENTRY_run_err _ _ _ (Nat.not_lt.mp hc)] at h
      exact Except.noConfusion h
  · intro tn sz st r h
    by_cases hc : st.types.length < DebugTypesArraySize
    · rw [MAKE_TYPE_ENTRY_WITH_ID_run_ok _ _ _ hc] at h
      cases h; rfl
    · rw [MAKE_TYPE_ENTRY_WITH_ID_run_err _ _ _ (Nat.not_lt.mp hc)] at h
      exact Except.noConfusion h
  · intro tid fn off st r h
    by_cases hc : st.fields.length < DebugFieldsArraySize
    · rw [MAKE_FIELD_ENTRY_WITH_ID_run_ok _ _ _ _ hc] at h
      cases h; rfl
    · rw [MAKE_FIELD_ENTRY_WITH_ID_run_err _ _ _ _ (Nat.not_lt.mp hc)] at h
      exact Except.noConfusion h
  · intro bn tid off st r h
    by_cases hc : st.bases.length < DebugBasesArraySize
    · rw [MAKE_BASE_TYPE_ENTRY_WITH_ID_run_ok _ _ _ _ hc] at h
      cases h; rfl
    · rw [MAKE_BASE_TYPE_ENTRY_WITH_ID_run_err _ _ _ _ (Nat.not_lt.mp hc)] at h
      exact Except.noConfusion h
  · intro n v st r h
    by_cases hc : st.defines.length < DebugDefinesArraySize
    · rw [MAKE_DEFINE_ENTRY_run_ok _ _ _ hc] at h
      cases h; rfl
    · rw [MAKE_DEFINE_ENTRY_run_err _ _ _ (Nat.not_lt.mp hc)] at h
      exact Except.noConfusion h
  · intro n a c st r h
    by_cases hc : st.tables.length < DebugTablesArraySize
    · rw [MAKE_TABLE_run_ok _ _ _ _ hc] at h
      cases h; rfl
    · rw [MAKE_TABLE_run_err _ _ _ _ (Nat.not_lt.mp hc)] at h
      exact Except.noConfusion h
  · intro st r h
    rw [setDebugTableCount_run] at h
    cases h
    exact ⟨rfl, rfl, rfl, rfl⟩

/-- C7 witness: a concrete registration from the initial state leaves
the header untouched, and the initial header carries the cookie. -/
theorem header_identity_fixed_witness :
    ({ initState with
         globals := [⟨"g", Word.lit 0⟩],
         events := [Event.globalRow] } : BuilderState).header = initState.header ∧
    initState.header.Cookie = [0x20, 0x43, 0x44, 0x48] :=
  ⟨header_identity_fixed.2.2.1 "g" (Word.lit 0) initState
     ((), { initState with globals := [⟨"g", Word.lit 0⟩], events := [Event.globalRow] })
     (by decide),
   by rw [header_identity_fixed.1]⟩

/-- A Base row as the `MAKE_BASE_TYPE_ENTRY` macro family produces it:
the stored offset is `baseoffset(T, B, F)` for a derived type `T`, a
base type `B` equal to the row's name field, and a shared member `F`,
and the row's `TypeId` names `T` in the Type table. -/
def baseRowWellFormed (types : List DebugTypeRow) (r : DebugMemberOffsetRow) : Bool :=
  match r.Offset with
  | .subW (.offsetofW t f) (.offsetofW b g) =>
      f == g && b == r.MemberName &&
      ((types[r.TypeId]?).map (fun tr => tr.TypeName) == some t)
  | _ => false

/-- C9: `RegisterBase` records the base sub-object's starting offset.
The offset stored via `baseoffset(T, B, F)` evaluates (through the
narrowing `uint32_t` store) to the byte offset of `F` within `T` minus
the byte offset of `F` within `B` whenever that difference is a proper
`uint32` value; `MAKE_BASE_TYPE_ENTRY_WITH_ID` appends exactly the row
`{baseName, typeId, offset}`; and in the builder run every Base row
stores a `baseoffset`-shaped offset whose base name is the row's name
and whose derived type is the one its `TypeId` names. -/
theorem register_base_offset :
    (∀ (T B F : String) (env : Env),
       env.offsetOf B F ≤ env.offsetOf T F → env.offsetOf T F < 2 ^ 64 →
       env.offsetOf T F - env.offsetOf B F < 2 ^ 32 →
       Word.eval32 env (baseoffset T B F) = env.offsetOf T F - env.offsetOf B F) ∧
    (∀ bn tid off st, st.bases.length < DebugBasesArraySize →
       ∃ r, StateT.run (MAKE_BASE_TYPE_ENTRY_WITH_ID bn tid off) st = .ok r ∧
         r.2.bases = st.bases ++ [⟨bn, tid, off⟩]) ∧
    (∀ fehf : Bool, ∃ st, PopulateClrDebugHeaders fehf = .ok st ∧
       (st.bases.all fun r => baseRowWellFormed st.types r) = true) := by
  refine ⟨?_, ?_, ?_⟩
  · intro T B F env h1 h2 h3
    simp only [Word.eval32, Word.eval, baseoffset]
    omega
  · intro bn tid off st h
    exact ⟨_, MAKE_BASE_TYPE_ENTRY_WITH_ID_run_ok bn tid off st h, rfl⟩
  · refine fun fehf => okAnd_elim ?_
    cases fehf <;> decide

/-- A valuation used to witness the offset arithmetic: member offsets
are 12 in the derived type `T` and 4 elsewhere. -/
def env1 : Env :=
  { sizeOf := fun _ => 0
    offsetOf := fun t _ => if t == "T" then 12 else 4
    addrOf := fun _ => 0, constVal := fun _ => 0 }

/-- C9 witness: with member offsets 12 (derived) and 4 (base), the
stored offset evaluates to 8, and the appended row is
`{"B", 0, baseoffset("T", "B", "F")}`. -/
theorem register_base_offset_witness :
    Word.eval32 env1 (baseoffset "T" "B" "F") = 8 ∧
    (∃ r, StateT.run (MAKE_BASE_TYPE_ENTRY_WITH_ID "B" 0 (baseoffset "T" "B" "F")) initState =
       .ok r ∧ r.2.bases = [⟨"B", 0, baseoffset "T" "B" "F"⟩]) := by
  constructor
  · have h := register_base_offset.1 "T" "B" "F" env1 (by decide) (by decide) (by decide)
    rw [h]; decide
  · obtain ⟨r, hr, hb⟩ :=
      register_base_offset.2.1 "B" 0 (baseoffset "T" "B" "F") initState (by decide)
    exact ⟨r, hr, by rw [hb]; decide⟩

end ClrDebug

namespace MiniPal

/-- The platform primitives `minipal_getexepath` calls, as the values
they return on this run: `none` is the API's failure signal (a nonzero
status or a NULL result).  `realpath` is the libc symlink-resolving
canonicalizer, returning NULL on failure. -/
structure OS where
  nsGetExecutablePath : Option String
  realpath : String → Option String
  sysctlProcPathname : Option String
  getexecname : Option String
  findPathImagePath : Option String
  getModuleFileNameA : Option String
  getauxvalExecfn : Option String

/-- The compile-time platform selection of `minipal_getexepath`: one
constructor per preprocessor branch; the default POSIX branch carries
the `__linux__` choice of the `/proc` symlink and whether
`HAVE_GETAUXVAL && defined(AT_EXECFN)` enables the `AT_EXECFN`
fallback. -/
inductive Platform where
  | apple
  | freebsd
  | sun
  | haiku
  | windows
  | wasm
  | posix (isLinux : Bool) (haveGetauxval : Bool)
deriving DecidableEq, Repr

/-- `static inline char* minipal_getexepath(void)`: the platform
dispatch of `src/native/minipal/getexepath.h`, returning the resolved
executable path or `none` (NULL).  `strdup` of an OS-provided buffer is
the identity on the modelled string. -/
def minipal_getexepath (plat : Platform) (os : OS) : Option String :=
  match plat with
  | .apple =>
    match os.nsGetExecutablePath with
    | none => none
    | some pathBuf => os.realpath pathBuf
  | .freebsd =>
    match os.sysctlProcPathname with
    | none => none
    | some path => some path
  | .sun =>
    match os.getexecname with
    | none => none
    | some path => os.realpath path
  | .haiku =>
    match os.findPathImagePath with
    | none => none
    | some path => os.realpath path
  | .windows =>
    match os.getModuleFileNameA with
    | none => none
    | some path => some path
  | .wasm => some "/managed"
  | .posix isLinux haveGetauxval =>
    let symlinkEntrypointExecutable := if isLinux then "/proc/self/exe" else "/proc/curproc/exe"
    match os.realpath symlinkEntrypointExecutable with
    | some path => some path
    | none =>
      if haveGetauxval then
        match os.getauxvalExecfn with
        | some exePath => os.realpath exePath
        | none => none
      else none

/-- C8: failure of the underlying OS call is propagated as the failure
signal (NULL), never replaced by a null-equivalent success and never
silently defaulted: on each platform, when the platform API fails the
result is `none`, and when it succeeds the result is exactly the
OS-produced value (the success characterizations), so every returned
path originates from the platform API.  The `TARGET_WASM` branch makes
no OS call — it returns the fixed packaging-convention path. -/
theorem getexepath_failure_propagation :
    (∀ os : OS, os.nsGetExecutablePath = none → minipal_getexepath .apple os = none) ∧
    (∀ (os : OS) p, os.nsGetExecutablePath = some p →
       minipal_getexepath .apple os = os.realpath p) ∧
    (∀ os : OS, os.sysctlProcPathname = none → minipal_getexepath .freebsd os = none) ∧
    (∀ (os : OS) p, os.sysctlProcPathname = some p → minipal_getexepath .freebsd os = some p) ∧
    (∀ os : OS, os.getexecname = none → minipal_getexepath .sun os = none) ∧
    (∀ (os : OS) p, os.getexecname = some p → minipal_getexepath .sun os = os.realpath p) ∧
    (∀ os : OS, os.findPathImagePath = none → minipal_getexepath .haiku os = none) ∧
    (∀ (os : OS) p, os.findPathImagePath = some p →
       minipal_getexepath .haiku os = os.realpath p) ∧
    (∀ os : OS, os.getModuleFileNameA = none → minipal_getexepath .windows os = none) ∧
    (∀ (os : OS) p, os.getModuleFileNameA = some p →
       minipal_getexepath .windows os = some p) ∧
    (∀ (os : OS) (il : Bool) p,
       os.realpath (if il then "/proc/self/exe" else "/proc/curproc/exe") = some p →
       ∀ ha, minipal_getexepath (.posix il ha) os = some p) ∧
    (∀ (os : OS) (il : Bool),
       os.realpath (if il then "/proc/self/exe" else "/proc/curproc/exe") = none →
       minipal_getexepath (.posix il false) os = none) ∧
    (∀ (os : OS) (il : Bool),
       os.realpath (if il then "/proc/self/exe" else "/proc/curproc/exe") = none →
       os.getauxvalExecfn = none → minipal_getexepath (.posix il true) os = none) ∧
    (∀ (os : OS) (il : Bool) e,
       os.realpath (if il then "/proc/self/exe" else "/proc/curproc/exe") = none →
       os.getauxvalExecfn = some e →
       minipal_getexepath (.posix il true) os = os.realpath e) := by
  refine ⟨?_, ?_, ?_, ?_, ?_, ?_, ?_, ?_, ?_, ?_, ?_, ?_, ?_, ?_⟩
  · intro os h; simp [minipal_getexepath, h]
  · intro os p h; simp [minipal_getexepath, h]
  · intro os h; simp [minipal_getexepath, h]
  · intro os p h; simp [minipal_getexepath, h]
  · intro os h; simp [minipal_getexepath, h]
  · intro os p h; simp [minipal_getexepath, h]
  · intro os h; simp [minipal_getexepath, h]
  · intro os p h; simp [minipal_getexepath, h]
  · intro os h; simp [minipal_getexepath, h]
  · intro os p h; simp [minipal_getexepath, h]
  · intro os il p h ha; simp [minipal_getexepath, h]
  · intro os il h; simp [minipal_getexepath, h]
  · intro os il h h2; simp [minipal_getexepath, h, h2]
  · intro os il e h h2; simp [minipal_getexepath, h, h2]

/-- An OS on which every platform primitive fails. -/
def osAllFail : OS :=
  { nsGetExecutablePath := none, realpath := fun _ => none, sysctlProcPathname := none
    getexecname := none, findPathImagePath := none, getModuleFileNameA := none
    getauxvalExecfn := none }

/-- C8 witness: with every platform primitive failing, every platform
branch of `minipal_getexepath` that makes an OS call returns the
failure signal. -/
theorem getexepath_failure_propagation_witness :
    minipal_getexepath .apple osAllFail = none ∧
    minipal_getexepath .freebsd osAllFail = none ∧
    minipal_getexepath .sun osAllFail = none ∧
    minipal_getexepath .haiku osAllFail = none ∧
    minipal_getexepath .windows osAllFail = none ∧
    minipal_getexepath (.posix true false) osAllFail = none ∧
    minipal_getexepath (.posix false true) osAllFail = none :=
  ⟨getexepath_failure_propagation.1 osAllFail rfl,
   getexepath_failure_propagation.2.2.1 osAllFail rfl,
   getexepath_failure_propagation.2.2.2.2.1 osAllFail rfl,
   getexepath_failure_propagation.2.2.2.2.2.2.1 osAllFail rfl,
   getexepath_failure_propagation.2.2.2.2.2.2.2.2.1 osAllFail rfl,
   getexepath_failure_propagation.2.2.2.2.2.2.2.2.2.2.2.1 osAllFail true rfl,
   getexepath_failure_propagation.2.2.2.2.2.2.2.2.2.2.2.2.1 osAllFail false rfl rfl⟩

end MiniPal
